import Mathlib

set_option linter.unusedVariables false

/-!
# SceneManager: texture registry, material catalog and shader state dispatch

A shallow embedding of `Source/SceneManager.cpp`.  The class keeps a fixed array of
tagged texture handles together with a count of the entries in use, a vector of
tagged materials, and a pointer to a shader manager through which uniforms are set.

Conventions of the embedding:

* `F` is the type of `float` values.  The registry, catalog and shader operations only
  store, copy and forward floats, so they are stated for an arbitrary `F`; the model
  matrix is computed over a field `F`, which the theorems take to be the reals.
* A read or write past the end of the texture array, and a call through a null
  shader manager, have no defined result: the operation returns `none`.
* Console output (`std::cout`) is not part of the state.
-/

namespace Scene

/-! ## Machine integers -/

/-- The OpenGL object name type: an unsigned 32-bit integer. -/
abbrev GLuint := Fin 4294967296

/-- Conversion of an unsigned 32-bit value to `int` (32-bit two's complement), as it
happens when `FindTextureID` assigns an `ID` to its `int` result. -/
def intOfGLuint (x : GLuint) : Int :=
  if x.val < 2147483648 then (x.val : Int) else (x.val : Int) - 4294967296

/-- Conversion of an `int` back to an unsigned 32-bit value. -/
def GLuintOfInt (v : Int) : GLuint :=
  ⟨(v % 4294967296).toNat, by omega⟩

/-! ## Data model -/

/-- Modelled from the spec: the declaration of `TEXTURE_INFO` is in `SceneManager.h`,
which is not among the sources.  The spec gives a texture entry as a string tag and an
integer GPU handle; the members are named as `SceneManager.cpp` uses them, and `ID` has
the type of the `GLuint` that `CreateGLTexture` assigns to it. -/
structure TEXTURE_INFO where
  tag : String
  ID : GLuint
deriving DecidableEq

/-- A three-component vector (`glm::vec3`). -/
structure Vec3 (F : Type) where
  x : F
  y : F
  z : F
deriving DecidableEq

/-- A four-component vector (`glm::vec4`), components named as colors. -/
structure Vec4 (F : Type) where
  r : F
  g : F
  b : F
  a : F
deriving DecidableEq

/-- Modelled from the spec: the declaration of `OBJECT_MATERIAL` is in
`SceneManager.h`, which is not among the sources.  The spec gives a material entry as
a tag, three RGB colors (ambient, diffuse, specular) and two scalars (ambient strength,
shininess); the members are named as `SceneManager.cpp` uses them. -/
structure OBJECT_MATERIAL (F : Type) where
  ambientColor : Vec3 F
  ambientStrength : F
  diffuseColor : Vec3 F
  specularColor : Vec3 F
  shininess : F
  tag : String
deriving DecidableEq

/-! ## The shader uniform interface -/

/-- A value held by a shader uniform.  Integer, boolean and sampler uniforms are all
integer-valued on the shader side. -/
inductive UniformValue (F : Type) where
  | int (v : Int)
  | float (v : F)
  | vec2 (u v : F)
  | vec3 (v : Vec3 F)
  | vec4 (v : Vec4 F)
  | mat4 (m : Fin 4 → Fin 4 → F)

/-- Modelled from the spec: the shader uniform interface (class `ShaderManager`, an
external collaborator whose source is not part of `SceneManager.cpp`).  It offers
named-uniform setters for float, int/bool, 2/3/4-component vector and 4x4 matrix
values, keyed by the uniform name; the state is the value last set under each name. -/
structure ShaderManager (F : Type) where
  uniforms : String → Option (UniformValue F)

/-- Store `v` under `name`, leaving every other uniform as it was. -/
def ShaderManager.setUniform {F : Type} (sm : ShaderManager F) (name : String)
    (v : UniformValue F) : ShaderManager F :=
  { uniforms := fun k => if k = name then some v else sm.uniforms k }

def ShaderManager.setIntValue {F : Type} (sm : ShaderManager F) (name : String)
    (value : Int) : ShaderManager F :=
  sm.setUniform name (.int value)

def ShaderManager.setBoolValue {F : Type} (sm : ShaderManager F) (name : String)
    (value : Bool) : ShaderManager F :=
  sm.setUniform name (.int (if value then 1 else 0))

def ShaderManager.setSampler2DValue {F : Type} (sm : ShaderManager F) (name : String)
    (value : Int) : ShaderManager F :=
  sm.setUniform name (.int value)

def ShaderManager.setFloatValue {F : Type} (sm : ShaderManager F) (name : String)
    (value : F) : ShaderManager F :=
  sm.setUniform name (.float value)

def ShaderManager.setVec2Value {F : Type} (sm : ShaderManager F) (name : String)
    (u v : F) : ShaderManager F :=
  sm.setUniform name (.vec2 u v)

def ShaderManager.setVec3Value {F : Type} (sm : ShaderManager F) (name : String)
    (value : Vec3 F) : ShaderManager F :=
  sm.setUniform name (.vec3 value)

def ShaderManager.setVec4Value {F : Type} (sm : ShaderManager F) (name : String)
    (value : Vec4 F) : ShaderManager F :=
  sm.setUniform name (.vec4 value)

def ShaderManager.setMat4Value {F : Type} (sm : ShaderManager F) (name : String)
    (value : Fin 4 → Fin 4 → F) : ShaderManager F :=
  sm.setUniform name (.mat4 value)

/-! ## The scene manager -/

/-- Modelled from the spec: the members of `SceneManager` are declared in
`SceneManager.h`, which is not among the sources; these are the members that the
embedded methods read or write.  `m_textureIDs` is the fixed-size array of texture
entries, its length being the capacity of the array, which is left open;
`m_loadedTextures` is the number of slots in use, an `int` that the code only ever
increments from a count of slots, kept here as a natural number; `m_objectMaterials`
is the vector of materials; `m_pShaderManager` is `none` for a null pointer, and
otherwise the state of the shader manager pointed to. -/
structure SceneManager (F : Type) where
  m_pShaderManager : Option (ShaderManager F)
  m_loadedTextures : Nat
  m_textureIDs : List TEXTURE_INFO
  m_objectMaterials : List (OBJECT_MATERIAL F)

def g_ModelName : String := "model"
def g_ColorValueName : String := "objectColor"
def g_TextureValueName : String := "objectTexture"
def g_UseTextureName : String := "bUseTexture"
def g_UseLightingName : String := "bUseLighting"

/-- The `while` loop of `FindTextureID`, entered with the current values of the
locals `textureID`, `index` and `bFound`. -/
def FindTextureID.loop (m_textureIDs : List TEXTURE_INFO) (m_loadedTextures : Nat)
    (tag : String) (textureID : Int) (index : Nat) (bFound : Bool) : Option Int :=
  if h : index < m_loadedTextures ∧ bFound = false then
    match m_textureIDs[index]? with
    | none => none
    | some entry =>
      if entry.tag = tag then
        FindTextureID.loop m_textureIDs m_loadedTextures tag (intOfGLuint entry.ID) index true
      else
        FindTextureID.loop m_textureIDs m_loadedTextures tag textureID (index + 1) false
  else
    some textureID
termination_by 2 * (m_loadedTextures - index) + (if bFound then 0 else 1)
decreasing_by
  all_goals simp_wf
  all_goals have hlt := h.1
  all_goals simp [h.2]
  all_goals omega

/-- `SceneManager::FindTextureID`. -/
def SceneManager.FindTextureID {F : Type} (this : SceneManager F) (tag : String) :
    Option Int :=
  FindTextureID.loop this.m_textureIDs this.m_loadedTextures tag (-1) 0 false

/-- The `while` loop of `FindTextureSlot`, entered with the current values of the
locals `textureSlot`, `index` and `bFound`. -/
def FindTextureSlot.loop (m_textureIDs : List TEXTURE_INFO) (m_loadedTextures : Nat)
    (tag : String) (textureSlot : Int) (index : Nat) (bFound : Bool) : Option Int :=
  if h : index < m_loadedTextures ∧ bFound = false then
    match m_textureIDs[index]? with
    | none => none
    | some entry =>
      if entry.tag = tag then
        FindTextureSlot.loop m_textureIDs m_loadedTextures tag (index : Int) index true
      else
        FindTextureSlot.loop m_textureIDs m_loadedTextures tag textureSlot (index + 1) false
  else
    some textureSlot
termination_by 2 * (m_loadedTextures - index) + (if bFound then 0 else 1)
decreasing_by
  all_goals simp_wf
  all_goals have hlt := h.1
  all_goals simp [h.2]
  all_goals omega

/-- `SceneManager::FindTextureSlot`. -/
def SceneManager.FindTextureSlot {F : Type} (this : SceneManager F) (tag : String) :
    Option Int :=
  FindTextureSlot.loop this.m_textureIDs this.m_loadedTextures tag (-1) 0 false

/-! ## The OpenGL context and the image decoder

OpenGL and `stb_image` are external libraries.  The context below holds what the
texture calls made by `SceneManager` act on; each call is given by its effect on a
context in which it succeeds.  The decoded pixel buffer itself is not represented:
of a decoded image only the width, height and channel count are read. -/

/-- The OpenGL enumerants passed by `CreateGLTexture`. -/
inductive GLenum where
  | GL_TEXTURE_WRAP_S | GL_TEXTURE_WRAP_T | GL_TEXTURE_MIN_FILTER | GL_TEXTURE_MAG_FILTER
  | GL_REPEAT | GL_LINEAR | GL_RGB8 | GL_RGBA8 | GL_RGB | GL_RGBA
deriving DecidableEq

/-- The image specified for a texture by `glTexImage2D`. -/
structure TexImage where
  internalformat : GLenum
  width : Int
  height : Int
  format : GLenum
deriving DecidableEq

/-- The state of one texture object. -/
structure TextureObject where
  parameters : List (GLenum × GLenum)
  image : Option TexImage
  mipmaps : Bool
deriving DecidableEq

/-- The OpenGL context: the texture names handed out by `glGenTextures` so far (in
order), the name the driver hands out next given those, the active texture unit, the
name bound to `GL_TEXTURE_2D` on each unit, and the texture object behind each name. -/
structure GLState where
  generated : List GLuint
  nextName : List GLuint → GLuint
  activeTexture : Nat
  boundTexture2D : Nat → GLuint
  textures : GLuint → TextureObject

/-- `glGenTextures(1, &name)`: the new name, and the context afterwards. -/
def glGenTextures (gl : GLState) : GLuint × GLState :=
  (gl.nextName gl.generated,
   { gl with generated := gl.generated ++ [gl.nextName gl.generated] })

/-- `glActiveTexture(GL_TEXTURE0 + unit)`. -/
def glActiveTexture (gl : GLState) (unit : Nat) : GLState :=
  { gl with activeTexture := unit }

/-- `glBindTexture(GL_TEXTURE_2D, name)`: binds on the active unit. -/
def glBindTexture (gl : GLState) (name : GLuint) : GLState :=
  { gl with boundTexture2D := fun u => if u = gl.activeTexture then name else gl.boundTexture2D u }

/-- Apply `f` to the texture object bound to `GL_TEXTURE_2D` on the active unit. -/
def GLState.onBoundTexture (gl : GLState) (f : TextureObject → TextureObject) : GLState :=
  { gl with textures := fun name =>
      if name = gl.boundTexture2D gl.activeTexture then f (gl.textures name)
      else gl.textures name }

/-- `glTexParameteri(GL_TEXTURE_2D, pname, param)`. -/
def glTexParameteri (gl : GLState) (pname param : GLenum) : GLState :=
  gl.onBoundTexture (fun t => { t with parameters := (pname, param) :: t.parameters })

/-- `glTexImage2D(GL_TEXTURE_2D, 0, internalformat, width, height, 0, format,
GL_UNSIGNED_BYTE, image)`. -/
def glTexImage2D (gl : GLState) (internalformat : GLenum) (width height : Int)
    (format : GLenum) : GLState :=
  gl.onBoundTexture (fun t => { t with image := some ⟨internalformat, width, height, format⟩ })

/-- `glGenerateMipmap(GL_TEXTURE_2D)`. -/
def glGenerateMipmap (gl : GLState) : GLState :=
  gl.onBoundTexture (fun t => { t with mipmaps := true })

/-- What `stbi_load` reports for an image it could decode. -/
structure STBImage where
  width : Int
  height : Int
  colorChannels : Int
deriving DecidableEq

/-! ## The texture registry: loading and binding -/

/-- The part of `CreateGLTexture` after the texture image has been specified: generate
the mipmaps, unbind the texture, write the tag and ID into the next free slot of
`m_textureIDs` and count it.  Writing past the end of the array gives `none`. -/
def CreateGLTexture.register {F : Type} (gl : GLState) (this : SceneManager F)
    (textureID : GLuint) (tag : String) : Option (Bool × GLState × SceneManager F) :=
  let gl := glGenerateMipmap gl
  let gl := glBindTexture gl 0
  if this.m_loadedTextures < this.m_textureIDs.length then
    some (true, gl,
      { this with
        m_textureIDs := this.m_textureIDs.set this.m_loadedTextures ⟨tag, textureID⟩
        m_loadedTextures := this.m_loadedTextures + 1 })
  else
    none

/-- `SceneManager::CreateGLTexture`.  `stbi_load` is the decoder: `none` for a file it
cannot decode.  The result is the returned `bool`, the OpenGL context and the scene
manager after the call. -/
def SceneManager.CreateGLTexture {F : Type} (this : SceneManager F)
    (stbi_load : String → Option STBImage) (gl : GLState) (filename : String)
    (tag : String) : Option (Bool × GLState × SceneManager F) :=
  match stbi_load filename with
  | some image =>
    let textureID := (glGenTextures gl).1
    let gl := (glGenTextures gl).2
    let gl := glBindTexture gl textureID
    let gl := glTexParameteri gl .GL_TEXTURE_WRAP_S .GL_REPEAT
    let gl := glTexParameteri gl .GL_TEXTURE_WRAP_T .GL_REPEAT
    let gl := glTexParameteri gl .GL_TEXTURE_MIN_FILTER .GL_LINEAR
    let gl := glTexParameteri gl .GL_TEXTURE_MAG_FILTER .GL_LINEAR
    if image.colorChannels = 3 then
      CreateGLTexture.register
        (glTexImage2D gl .GL_RGB8 image.width image.height .GL_RGB) this textureID tag
    else if image.colorChannels = 4 then
      CreateGLTexture.register
        (glTexImage2D gl .GL_RGBA8 image.width image.height .GL_RGBA) this textureID tag
    else
      some (false, gl, this)
  | none => some (false, gl, this)

/-- The `for` loop of `BindGLTextures`, entered with the current value of `i`. -/
def BindGLTextures.loop {F : Type} (this : SceneManager F) (i : Nat) (gl : GLState) :
    Option GLState :=
  if h : i < this.m_loadedTextures then
    match this.m_textureIDs[i]? with
    | none => none
    | some entry =>
      BindGLTextures.loop this (i + 1) (glBindTexture (glActiveTexture gl i) entry.ID)
  else
    some gl
termination_by this.m_loadedTextures - i

/-- `SceneManager::BindGLTextures`. -/
def SceneManager.BindGLTextures {F : Type} (this : SceneManager F) (gl : GLState) :
    Option GLState :=
  BindGLTextures.loop this 0 gl

/-! ## The material catalog -/

/-- The five assignments `FindMaterial` makes to its output parameter on a match; the
`tag` member of the output is not assigned. -/
def OBJECT_MATERIAL.assignFrom {F : Type} (material entry : OBJECT_MATERIAL F) :
    OBJECT_MATERIAL F :=
  { material with
    ambientColor := entry.ambientColor
    ambientStrength := entry.ambientStrength
    diffuseColor := entry.diffuseColor
    specularColor := entry.specularColor
    shininess := entry.shininess }

/-- The `while` loop of `FindMaterial`, entered with the current values of the output
parameter `material` and of the locals `index` and `bFound`; it gives the values of
`bFound` and `material` on exit. -/
def FindMaterial.loop {F : Type} (m_objectMaterials : List (OBJECT_MATERIAL F))
    (tag : String) (material : OBJECT_MATERIAL F) (index : Nat) (bFound : Bool) :
    Bool × OBJECT_MATERIAL F :=
  if h : index < m_objectMaterials.length ∧ bFound = false then
    if (m_objectMaterials.get ⟨index, h.1⟩).tag = tag then
      FindMaterial.loop m_objectMaterials tag
        (material.assignFrom (m_objectMaterials.get ⟨index, h.1⟩)) index true
    else
      FindMaterial.loop m_objectMaterials tag material (index + 1) false
  else
    (bFound, material)
termination_by 2 * (m_objectMaterials.length - index) + (if bFound then 0 else 1)
decreasing_by
  all_goals simp_wf
  all_goals have hlt := h.1
  all_goals simp [h.2]
  all_goals omega

/-- `SceneManager::FindMaterial`: the returned `bool` and the output parameter
`material` after the call.  The value returned after the loop is the constant `true`;
the loop's `bFound` is not read again. -/
def SceneManager.FindMaterial {F : Type} (this : SceneManager F) (tag : String)
    (material : OBJECT_MATERIAL F) : Bool × OBJECT_MATERIAL F :=
  if this.m_objectMaterials.length = 0 then
    (false, material)
  else
    (true, (FindMaterial.loop this.m_objectMaterials tag material 0 false).2)

/-! ## Shader state dispatch -/

/-- Conversion of a `bool` argument to the `int` parameter of `setIntValue`. -/
def intOfBool (b : Bool) : Int :=
  if b then 1 else 0

/-- `SceneManager::SetShaderColor`. -/
def SceneManager.SetShaderColor {F : Type} (this : SceneManager F)
    (redColorValue greenColorValue blueColorValue alphaValue : F) : SceneManager F :=
  let currentColor : Vec4 F :=
    { r := redColorValue, g := greenColorValue, b := blueColorValue, a := alphaValue }
  match this.m_pShaderManager with
  | some sm =>
    let sm := sm.setIntValue g_UseTextureName (intOfBool false)
    let sm := sm.setVec4Value g_ColorValueName currentColor
    { this with m_pShaderManager := some sm }
  | none => this

/-- `SceneManager::SetShaderTexture`. -/
def SceneManager.SetShaderTexture {F : Type} (this : SceneManager F) (textureTag : String) :
    Option (SceneManager F) :=
  match this.m_pShaderManager with
  | some sm =>
    let sm := sm.setIntValue g_UseTextureName (intOfBool true)
    match this.FindTextureSlot textureTag with
    | none => none
    | some textureID =>
      some { this with
        m_pShaderManager := some (sm.setSampler2DValue g_TextureValueName textureID) }
  | none => some this

/-- `SceneManager::SetTextureUVScale`. -/
def SceneManager.SetTextureUVScale {F : Type} (this : SceneManager F) (u v : F) :
    SceneManager F :=
  match this.m_pShaderManager with
  | some sm => { this with m_pShaderManager := some (sm.setVec2Value "UVscale" u v) }
  | none => this

/-- `SceneManager::SetShaderMaterial`.  The local `material` is declared without an
initializer; `material` is what it holds when `FindMaterial` is called.  The setters
are called through `m_pShaderManager` without a null check. -/
def SceneManager.SetShaderMaterial {F : Type} (this : SceneManager F) (materialTag : String)
    (material : OBJECT_MATERIAL F) : Option (SceneManager F) :=
  if this.m_objectMaterials.length > 0 then
    let bReturn := (this.FindMaterial materialTag material).1
    let material := (this.FindMaterial materialTag material).2
    if bReturn = true then
      match this.m_pShaderManager with
      | none => none
      | some sm =>
        let sm := sm.setVec3Value "material.ambientColor" material.ambientColor
        let sm := sm.setFloatValue "material.ambientStrength" material.ambientStrength
        let sm := sm.setVec3Value "material.diffuseColor" material.diffuseColor
        let sm := sm.setVec3Value "material.specularColor" material.specularColor
        let sm := sm.setFloatValue "material.shininess" material.shininess
        some { this with m_pShaderManager := some sm }
    else
      some this
  else
    some this

/-- `SceneManager::DefineObjectMaterials`: nine materials are filled in and pushed
onto the back of `m_objectMaterials`, one after the other. -/
def SceneManager.DefineObjectMaterials {F : Type} [OfScientific F] (this : SceneManager F) :
    SceneManager F :=
  let m_objectMaterials := this.m_objectMaterials
  let steelMaterial : OBJECT_MATERIAL F :=
    { ambientColor := ⟨0.1, 0.1, 0.1⟩, ambientStrength := 0.2, diffuseColor := ⟨0.2, 0.2, 0.2⟩,
      specularColor := ⟨0.6, 0.6, 0.6⟩, shininess := 128.0, tag := "steel" }
  let m_objectMaterials := m_objectMaterials ++ [steelMaterial]
  let ceramicMaterial : OBJECT_MATERIAL F :=
    { ambientColor := ⟨0.2, 0.2, 0.2⟩, ambientStrength := 0.4, diffuseColor := ⟨0.8, 0.8, 0.8⟩,
      specularColor := ⟨0.4, 0.4, 0.4⟩, shininess := 32.0, tag := "ceramic" }
  let m_objectMaterials := m_objectMaterials ++ [ceramicMaterial]
  let woodMaterial : OBJECT_MATERIAL F :=
    { ambientColor := ⟨0.4, 0.3, 0.1⟩, ambientStrength := 0.2, diffuseColor := ⟨0.3, 0.2, 0.1⟩,
      specularColor := ⟨0.1, 0.1, 0.1⟩, shininess := 0.3, tag := "wood" }
  let m_objectMaterials := m_objectMaterials ++ [woodMaterial]
  let plasticMaterial : OBJECT_MATERIAL F :=
    { ambientColor := ⟨0.1, 0.1, 0.1⟩, ambientStrength := 0.2, diffuseColor := ⟨0.6, 0.6, 0.6⟩,
      specularColor := ⟨0.8, 0.8, 0.8⟩, shininess := 64.0, tag := "plastic" }
  let m_objectMaterials := m_objectMaterials ++ [plasticMaterial]
  let glassMaterial : OBJECT_MATERIAL F :=
    { ambientColor := ⟨0.4, 0.4, 0.4⟩, ambientStrength := 0.3, diffuseColor := ⟨0.3, 0.3, 0.3⟩,
      specularColor := ⟨0.6, 0.6, 0.6⟩, shininess := 85.0, tag := "glass" }
  let m_objectMaterials := m_objectMaterials ++ [glassMaterial]
  let bagelMaterial : OBJECT_MATERIAL F :=
    { ambientColor := ⟨0.2, 0.2, 0.2⟩, ambientStrength := 0.3, diffuseColor := ⟨0.4, 0.4, 0.5⟩,
      specularColor := ⟨0.2, 0.2, 0.4⟩, shininess := 0.5, tag := "bagel" }
  let m_objectMaterials := m_objectMaterials ++ [bagelMaterial]
  let paperMaterial : OBJECT_MATERIAL F :=
    { ambientColor := ⟨0.2, 0.2, 0.2⟩, ambientStrength := 0.4, diffuseColor := ⟨0.6, 0.6, 0.6⟩,
      specularColor := ⟨0.2, 0.2, 0.2⟩, shininess := 40.0, tag := "paper" }
  let m_objectMaterials := m_objectMaterials ++ [paperMaterial]
  let waxMaterial : OBJECT_MATERIAL F :=
    { ambientColor := ⟨0.2, 0.2, 0.2⟩, ambientStrength := 0.4, diffuseColor := ⟨0.8, 0.8, 0.6⟩,
      specularColor := ⟨0.6, 0.6, 0.4⟩, shininess := 32.0, tag := "wax" }
  let m_objectMaterials := m_objectMaterials ++ [waxMaterial]
  let candleFlameMaterial : OBJECT_MATERIAL F :=
    { ambientColor := ⟨0.0, 0.0, 0.0⟩, ambientStrength := 0.0, diffuseColor := ⟨1.0, 0.8, 0.4⟩,
      specularColor := ⟨0.0, 0.0, 0.0⟩, shininess := 0.0, tag := "candleFlame" }
  let m_objectMaterials := m_objectMaterials ++ [candleFlameMaterial]
  { this with m_objectMaterials := m_objectMaterials }

/-- The scene manager after a successful registration of `tag` under `textureID`. -/
def SceneManager.registered {F : Type} (this : SceneManager F) (textureID : GLuint)
    (tag : String) : SceneManager F :=
  { this with
    m_textureIDs := this.m_textureIDs.set this.m_loadedTextures ⟨tag, textureID⟩
    m_loadedTextures := this.m_loadedTextures + 1 }

/-! ## Transformations

GLM is an external library.  Its matrices are given here as they come out in exact
arithmetic, indexed by row and column, acting on column vectors.  The functions of
real analysis that GLM calls are collected in `GLMath`, so that the definitions can be
evaluated over any field; the theorems take them over the reals. -/

/-- The functions `cos`, `sin` and `sqrt` and the constant pi that GLM uses. -/
structure GLMath (F : Type) where
  cos : F → F
  sin : F → F
  sqrt : F → F
  pi : F

/-- The four values `a`, `b`, `c`, `d` indexed by 0, 1, 2, 3. -/
def vec4 {α : Type} (a b c d : α) : Fin 4 → α :=
  fun i =>
    match i with
    | 0 => a
    | 1 => b
    | 2 => c
    | 3 => d

/-- A 4x4 matrix (`glm::mat4`), as the function from row and column to the entry. -/
abbrev Mat4 (F : Type) := Fin 4 → Fin 4 → F

/-- The matrix product (`operator*` of `glm::mat4`). -/
def Mat4.mul {F : Type} [Field F] (a b : Mat4 F) : Mat4 F :=
  fun i j => a i 0 * b 0 j + a i 1 * b 1 j + a i 2 * b 2 j + a i 3 * b 3 j

/-- The product of a matrix with a column vector. -/
def Mat4.apply {F : Type} [Field F] (a : Mat4 F) (v : Fin 4 → F) : Fin 4 → F :=
  fun i => a i 0 * v 0 + a i 1 * v 1 + a i 2 * v 2 + a i 3 * v 3

/-- The 4x4 identity matrix (`glm::mat4(1.0f)`). -/
def Mat4.identity {F : Type} [Field F] : Mat4 F :=
  vec4 (vec4 1 0 0 0) (vec4 0 1 0 0) (vec4 0 0 1 0) (vec4 0 0 0 1)

/-- A point as a column vector in homogeneous coordinates. -/
def Vec3.toPoint {F : Type} [Field F] (p : Vec3 F) : Fin 4 → F :=
  vec4 p.x p.y p.z 1

/-- `glm::radians`. -/
def glm_radians {F : Type} [Field F] (m : GLMath F) (degrees : F) : F :=
  degrees * (m.pi / 180)

/-- `glm::normalize` of a `vec3`: the vector times the inverse square root of its dot
product with itself. -/
def glm_normalize {F : Type} [Field F] (m : GLMath F) (v : Vec3 F) : Vec3 F :=
  let inversesqrt := 1 / m.sqrt (v.x * v.x + v.y * v.y + v.z * v.z)
  { x := v.x * inversesqrt, y := v.y * inversesqrt, z := v.z * inversesqrt }

/-- `glm::scale(v)`: the identity scaled along the three axes. -/
def glm_scale {F : Type} [Field F] (v : Vec3 F) : Mat4 F :=
  vec4 (vec4 v.x 0 0 0) (vec4 0 v.y 0 0) (vec4 0 0 v.z 0) (vec4 0 0 0 1)

/-- `glm::translate(v)`: the identity with `v` in the last column. -/
def glm_translate {F : Type} [Field F] (v : Vec3 F) : Mat4 F :=
  vec4 (vec4 1 0 0 v.x) (vec4 0 1 0 v.y) (vec4 0 0 1 v.z) (vec4 0 0 0 1)

/-- `glm::rotate(angle, v)`: the rotation by `angle` radians about the normalized
axis `v`, by the formula of `glm::rotate` applied to the identity matrix. -/
def glm_rotate {F : Type} [Field F] (m : GLMath F) (angle : F) (v : Vec3 F) : Mat4 F :=
  let c := m.cos angle
  let s := m.sin angle
  let axis := glm_normalize m v
  let temp : Vec3 F := { x := (1 - c) * axis.x, y := (1 - c) * axis.y, z := (1 - c) * axis.z }
  vec4
    (vec4 (c + temp.x * axis.x) (temp.y * axis.x - s * axis.z) (temp.z * axis.x + s * axis.y) 0)
    (vec4 (temp.x * axis.y + s * axis.z) (c + temp.y * axis.y) (temp.z * axis.y - s * axis.x) 0)
    (vec4 (temp.x * axis.z - s * axis.y) (temp.y * axis.z + s * axis.x) (c + temp.z * axis.z) 0)
    (vec4 0 0 0 1)

/-- The value of the local `modelView` of `SetTransformations` when it is passed to
the shader: `translation * rotationX * rotationY * rotationZ * scale`. -/
def SetTransformations.modelView {F : Type} [Field F] (m : GLMath F) (scaleXYZ : Vec3 F)
    (XrotationDegrees YrotationDegrees ZrotationDegrees : F) (positionXYZ : Vec3 F) :
    Mat4 F :=
  let scale := glm_scale scaleXYZ
  let rotationX := glm_rotate m (glm_radians m XrotationDegrees) ⟨1, 0, 0⟩
  let rotationY := glm_rotate m (glm_radians m YrotationDegrees) ⟨0, 1, 0⟩
  let rotationZ := glm_rotate m (glm_radians m ZrotationDegrees) ⟨0, 0, 1⟩
  let translation := glm_translate positionXYZ
  Mat4.mul (Mat4.mul (Mat4.mul (Mat4.mul translation rotationX) rotationY) rotationZ) scale

/-- `SceneManager::SetTransformations`. -/
def SceneManager.SetTransformations {F : Type} [Field F] (this : SceneManager F)
    (m : GLMath F) (scaleXYZ : Vec3 F)
    (XrotationDegrees YrotationDegrees ZrotationDegrees : F) (positionXYZ : Vec3 F) :
    SceneManager F :=
  let modelView := SetTransformations.modelView m scaleXYZ XrotationDegrees
    YrotationDegrees ZrotationDegrees positionXYZ
  match this.m_pShaderManager with
  | some sm => { this with m_pShaderManager := some (sm.setMat4Value g_ModelName modelView) }
  | none => this

/-! ### The steps of a transformation, as the specification words them -/

/-- Scaling a point along the three axes. -/
def scalePoint {F : Type} [Field F] (s p : Vec3 F) : Vec3 F :=
  { x := s.x * p.x, y := s.y * p.y, z := s.z * p.z }

/-- Rotating a point about the X axis by `angle` radians. -/
def rotateAboutX {F : Type} [Field F] (m : GLMath F) (angle : F) (p : Vec3 F) : Vec3 F :=
  { x := p.x
    y := m.cos angle * p.y - m.sin angle * p.z
    z := m.sin angle * p.y + m.cos angle * p.z }

/-- Rotating a point about the Y axis by `angle` radians. -/
def rotateAboutY {F : Type} [Field F] (m : GLMath F) (angle : F) (p : Vec3 F) : Vec3 F :=
  { x := m.cos angle * p.x + m.sin angle * p.z
    y := p.y
    z := m.cos angle * p.z - m.sin angle * p.x }

/-- Rotating a point about the Z axis by `angle` radians. -/
def rotateAboutZ {F : Type} [Field F] (m : GLMath F) (angle : F) (p : Vec3 F) : Vec3 F :=
  { x := m.cos angle * p.x - m.sin angle * p.y
    y := m.sin angle * p.x + m.cos angle * p.y
    z := p.z }

/-- Translating a point. -/
def translatePoint {F : Type} [Field F] (t p : Vec3 F) : Vec3 F :=
  { x := p.x + t.x, y := p.y + t.y, z := p.z + t.z }

/-! ## The texture registry: teardown -/

/-- The `for` loop of `DestroyGLTextures`, entered with the current value of `i`: each
iteration calls `glGenTextures(1, &m_textureIDs[i].ID)`, which stores a newly
generated name in the slot. -/
def DestroyGLTextures.loop (m_loadedTextures : Nat) (i : Nat) (gl : GLState)
    (m_textureIDs : List TEXTURE_INFO) : Option (GLState × List TEXTURE_INFO) :=
  if h : i < m_loadedTextures then
    match m_textureIDs[i]? with
    | none => none
    | some entry =>
      DestroyGLTextures.loop m_loadedTextures (i + 1) (glGenTextures gl).2
        (m_textureIDs.set i { entry with ID := (glGenTextures gl).1 })
  else
    some (gl, m_textureIDs)
termination_by m_loadedTextures - i

/-- `SceneManager::DestroyGLTextures`. -/
def SceneManager.DestroyGLTextures {F : Type} (this : SceneManager F) (gl : GLState) :
    Option (GLState × SceneManager F) :=
  match DestroyGLTextures.loop this.m_loadedTextures 0 gl this.m_textureIDs with
  | none => none
  | some r => some (r.1, { this with m_textureIDs := r.2 })

/-! ## The fixed scene

`LoadSceneTextures` and `RenderScene` are straight-line sequences of calls.  Each is
given as the list of its calls in source order, with the arguments of each call, and a
function that makes the calls one after the other. -/

/-- The calls of `CreateGLTexture` in `LoadSceneTextures`, in order: file name and tag. -/
def LoadSceneTextures.calls : List (String × String) :=
  [
    ("C:/Users/arman/Documents/SNHU/CS 330/CS330Content/CS330Content/Projects/7-1_FinalProjectMilestones/PPAPER.jpg",
      "Paper"),
    ("C:/Users/arman/Documents/SNHU/CS 330/CS330Content/CS330Content/Projects/7-1_FinalProjectMilestones/WoodTab.jpg",
      "Table"),
    ("C:/Users/arman/Documents/SNHU/CS 330/CS330Content/CS330Content/Projects/7-1_FinalProjectMilestones/Metalstainless.jpg",
      "Metal_S"),
    ("C:/Users/arman/Documents/SNHU/CS 330/CS330Content/CS330Content/Projects/7-1_FinalProjectMilestones/PlasticGray.jpg",
      "Plastic_P"),
    ("C:/Users/arman/Documents/SNHU/CS 330/CS330Content/CS330Content/Projects/7-1_FinalProjectMilestones/Metal_T.jpg",
      "Metal_T"),
    ("C:/Users/arman/Documents/SNHU/CS 330/CS330Content/CS330Content/Projects/7-1_FinalProjectMilestones/Bagel01.jpg",
      "Bagel_B"),
    ("C:/Users/arman/Documents/SNHU/CS 330/CS330Content/CS330Content/Projects/7-1_FinalProjectMilestones/Candle.jpg",
      "Candle_C"),
    ("C:/Users/arman/Documents/SNHU/CS 330/CS330Content/CS330Content/Projects/7-1_FinalProjectMilestones/Candle_L.jpg",
      "Candle_L"),
    ("C:/Users/arman/Documents/SNHU/CS 330/CS330Content/CS330Content/Projects/7-1_FinalProjectMilestones/Mug_M.jpg",
      "Mug_M"),
    ("C:/Users/arman/Documents/SNHU/CS 330/CS330Content/CS330Content/Projects/7-1_FinalProjectMilestones/Lblue_B.jpg",
      "Lblue_B"),
    ("C:/Users/arman/Documents/SNHU/CS 330/CS330Content/CS330Content/Projects/7-1_FinalProjectMilestones/White_Lid.jpg",
      "White_Lid")
  ]

/-- Make the `CreateGLTexture` calls of a list in order; the result holds the value
assigned to `bReturn` by each call (which the code does not read). -/
def LoadSceneTextures.run {F : Type} (stbi_load : String → Option STBImage) :
    List (String × String) → GLState → SceneManager F →
      Option (List Bool × GLState × SceneManager F)
  | [], gl, this => some ([], gl, this)
  | call :: rest, gl, this =>
    match this.CreateGLTexture stbi_load gl call.1 call.2 with
    | none => none
    | some r =>
      match LoadSceneTextures.run stbi_load rest r.2.1 r.2.2 with
      | none => none
      | some rs => some (r.1 :: rs.1, rs.2.1, rs.2.2)

/-- `SceneManager::LoadSceneTextures`: the eleven loads, then `BindGLTextures`. -/
def SceneManager.LoadSceneTextures {F : Type} (this : SceneManager F)
    (stbi_load : String → Option STBImage) (gl : GLState) :
    Option (GLState × SceneManager F) :=
  match LoadSceneTextures.run stbi_load LoadSceneTextures.calls gl this with
  | none => none
  | some rs =>
    match rs.2.2.BindGLTextures rs.2.1 with
    | none => none
    | some gl => some (gl, rs.2.2)

/-- The three mesh kinds drawn by the scene. -/
inductive MeshKind where
  | Plane | Cylinder | Torus
deriving DecidableEq

/-- Modelled from the spec: the mesh geometry provider (class `ShapeMeshes`, reached
through `m_basicMeshes`; its source is not among the sources).  Its `drawXMesh()`
issues the draw call for a mesh kind using the currently bound uniform state; the
state here is the list of draws issued so far, oldest first, each with the uniform
state it was issued under. -/
structure ShapeMeshes (F : Type) where
  drawn : List (MeshKind × Option (ShaderManager F))

/-- A draw call for one mesh kind. -/
def ShapeMeshes.draw {F : Type} (meshes : ShapeMeshes F) (kind : MeshKind)
    (uniforms : Option (ShaderManager F)) : ShapeMeshes F :=
  { drawn := meshes.drawn ++ [(kind, uniforms)] }

/-- One call made by `RenderScene`, with its arguments.  The assignments to the locals
`scaleXYZ`, `XrotationDegrees`, `YrotationDegrees`, `ZrotationDegrees` and
`positionXYZ` that precede a `SetTransformations` call are its arguments. -/
inductive SceneCall (F : Type) where
  | SetTransformations (scaleXYZ : Vec3 F)
      (XrotationDegrees YrotationDegrees ZrotationDegrees : F) (positionXYZ : Vec3 F)
  | SetShaderColor (redColorValue greenColorValue blueColorValue alphaValue : F)
  | SetShaderTexture (textureTag : String)
  | SetShaderMaterial (materialTag : String)
  | DrawPlaneMesh
  | DrawCylinderMesh
  | DrawTorusMesh

/-- The calls of `RenderScene`, in source order. -/
def RenderScene.calls {F : Type} [Field F] : List (SceneCall F) :=
  [
    -- Table plane
    .SetTransformations ⟨20.0, 1.0, 10.0⟩ 0.0 0.0 0.0 ⟨0.0, 0.0, 0.0⟩,
    .SetShaderColor 1 1 1 1,
    .SetShaderTexture "Table",
    .SetShaderMaterial "wood",
    .DrawPlaneMesh,
    -- Jar
    .SetTransformations ⟨2.0, 3.95, 1.5⟩ 0.0 0.0 180.0 ⟨3.0, 4.0, 0.0⟩,
    .SetShaderColor 0.439 0.502 0.565 1,
    .SetShaderTexture "Metal_S",
    .SetShaderMaterial "steel",
    .DrawCylinderMesh,
    -- Jar lid
    .SetTransformations ⟨1.8, 1.5, 1.7⟩ 90.0 (-10.0) 100.0 ⟨4.0, 5.2, 0.0⟩,
    .SetShaderColor 0.184 0.310 0.310 1,
    .SetShaderTexture "Metal_S",
    .SetShaderMaterial "steel",
    .DrawCylinderMesh,
    -- Jar lid seal
    .SetTransformations ⟨1.9, 0.3, 1.75⟩ 90.0 (-10.0) 100.0 ⟨3.5, 5.35, -0.1⟩,
    .SetShaderColor 0.753 0.753 0.753 1,
    .SetShaderTexture "Plastic_P",
    .SetShaderMaterial "plastic",
    .DrawCylinderMesh,
    -- Jar lid handle
    .SetTransformations ⟨0.5, 0.8, 0.5⟩ 90.0 (-10.0) 100.0 ⟨2.7, 5.35, 0.0⟩,
    .SetShaderColor 0.412 0.412 0.412 1,
    .SetShaderTexture "Metal_T",
    .DrawCylinderMesh,
    -- Napkin
    .SetTransformations ⟨2.0, 1.5, 1.0⟩ 0.0 30.0 0.0 ⟨4.0, 0.08, 3.5⟩,
    .SetShaderColor 1 1 1 1,
    .SetShaderTexture "Paper",
    .SetShaderMaterial "paper",
    .DrawPlaneMesh,
    -- Bagel
    .SetTransformations ⟨0.9, 1.0, 1.5⟩ 90.0 0.0 0.0 ⟨3.8, 0.35, 3.5⟩,
    .SetShaderColor 1.000 0.647 0.000 1,
    .SetShaderTexture "Bagel_B",
    .SetShaderMaterial "bagel",
    .DrawTorusMesh,
    -- Candle
    .SetTransformations ⟨1.0, 3.95, 1.0⟩ 0.0 0.0 180.0 ⟨-1.0, 4.0, 0.0⟩,
    .SetShaderColor 0.439 0.502 0.565 1,
    .SetShaderTexture "Candle_C",
    .SetShaderMaterial "wax",
    .DrawCylinderMesh,
    -- Candle light
    .SetTransformations ⟨0.2, 0.5, 1.5⟩ 90.0 00.0 100.0 ⟨-0.8, 4.00, 0.0⟩,
    .SetShaderColor 0.412 0.412 0.412 1,
    .SetShaderTexture "Candle_L",
    .SetShaderMaterial "candleFlame",
    .DrawCylinderMesh,
    -- Mug
    .SetTransformations ⟨2.0, 2.45, 1.5⟩ 0.0 0.0 180.0 ⟨-5.0, 2.5, 0.0⟩,
    .SetShaderColor 0.439 0.502 0.565 1,
    .SetShaderTexture "Mug_M",
    .SetShaderMaterial "ceramic",
    .DrawCylinderMesh,
    -- Water bottle
    .SetTransformations ⟨0.9, 3.7, 0.8⟩ 0.0 0.0 (-145.0) ⟨-6.3, 3.9, 0.0⟩,
    .SetShaderColor 0.439 0.502 0.565 1,
    .SetShaderTexture "Lblue_B",
    .SetShaderMaterial "plastic",
    .DrawCylinderMesh,
    -- Water bottle lid
    .SetTransformations ⟨0.4, 0.7, 0.4⟩ 0.0 0.0 (-145.0) ⟨-6.6, 4.3, 0.0⟩,
    .SetShaderColor 0.439 0.502 0.565 1,
    .SetShaderTexture "White_Lid",
    .SetShaderMaterial "plastic",
    .DrawCylinderMesh
  ]

/-- Make one call of `RenderScene`.  `material` is what the uninitialized local of
`SetShaderMaterial` holds. -/
def SceneCall.run {F : Type} [Field F] (m : GLMath F) (material : OBJECT_MATERIAL F)
    (call : SceneCall F) (this : SceneManager F) (meshes : ShapeMeshes F) :
    Option (SceneManager F × ShapeMeshes F) :=
  match call with
  | .SetTransformations scaleXYZ x y z positionXYZ =>
    some (this.SetTransformations m scaleXYZ x y z positionXYZ, meshes)
  | .SetShaderColor r g b a => some (this.SetShaderColor r g b a, meshes)
  | .SetShaderTexture textureTag =>
    match this.SetShaderTexture textureTag with
    | none => none
    | some this => some (this, meshes)
  | .SetShaderMaterial materialTag =>
    match this.SetShaderMaterial materialTag material with
    | none => none
    | some this => some (this, meshes)
  | .DrawPlaneMesh => some (this, meshes.draw .Plane this.m_pShaderManager)
  | .DrawCylinderMesh => some (this, meshes.draw .Cylinder this.m_pShaderManager)
  | .DrawTorusMesh => some (this, meshes.draw .Torus this.m_pShaderManager)

/-- Make the calls of a list in order. -/
def RenderScene.run {F : Type} [Field F] (m : GLMath F) (material : OBJECT_MATERIAL F) :
    List (SceneCall F) → SceneManager F → ShapeMeshes F →
      Option (SceneManager F × ShapeMeshes F)
  | [], this, meshes => some (this, meshes)
  | call :: rest, this, meshes =>
    match call.run m material this meshes with
    | none => none
    | some r => RenderScene.run m material rest r.1 r.2

/-- `SceneManager::RenderScene`. -/
def SceneManager.RenderScene {F : Type} [Field F] (this : SceneManager F) (m : GLMath F)
    (material : OBJECT_MATERIAL F) (meshes : ShapeMeshes F) :
    Option (SceneManager F × ShapeMeshes F) :=
  RenderScene.run m material RenderScene.calls this meshes

/-- What a call of `RenderScene` does for the next draw. -/
inductive CallKind where
  | transform | colorOrTexture | material | draw
deriving DecidableEq

def SceneCall.kind {F : Type} : SceneCall F → CallKind
  | .SetTransformations _ _ _ _ _ => .transform
  | .SetShaderColor _ _ _ _ => .colorOrTexture
  | .SetShaderTexture _ => .colorOrTexture
  | .SetShaderMaterial _ => .material
  | .DrawPlaneMesh => .draw
  | .DrawCylinderMesh => .draw
  | .DrawTorusMesh => .draw

/-- The calls made before each draw call since the previous draw call (or since the
start, for the first one): one list per draw call, in order.  `current` holds the
calls made since the last draw. -/
def drawSegments {F : Type} : List (SceneCall F) → List (SceneCall F) →
    List (List (SceneCall F))
  | [], _ => []
  | call :: rest, current =>
    if call.kind = .draw then current :: drawSegments rest []
    else drawSegments rest (current ++ [call])

/-- How far a sequence of calls has got towards "a transform call, then a color or
texture call, then a material call", starting from `stage` (0: nothing yet, 1: a
transform call seen, 2: then a color or texture call, 3: then a material call). -/
def prepStage : List CallKind → Nat → Nat
  | [], stage => stage
  | .transform :: rest, 0 => prepStage rest 1
  | .colorOrTexture :: rest, 1 => prepStage rest 2
  | .material :: rest, 2 => prepStage rest 3
  | _ :: rest, stage => prepStage rest stage

/-- A draw is prepared when the calls since the previous draw contain a transform
call, later a color or texture call, and later still a material call. -/
def prepared {F : Type} (segment : List (SceneCall F)) : Bool :=
  prepStage (segment.map SceneCall.kind) 0 = 3

/-- The tags `RenderScene` passes to `SetShaderTexture`, in order. -/
def RenderScene.textureTags {F : Type} : List (SceneCall F) → List String
  | [] => []
  | .SetShaderTexture textureTag :: rest => textureTag :: RenderScene.textureTags rest
  | _ :: rest => RenderScene.textureTags rest

/-- The tags `RenderScene` passes to `SetShaderMaterial`, in order. -/
def RenderScene.materialTags {F : Type} : List (SceneCall F) → List String
  | [] => []
  | .SetShaderMaterial materialTag :: rest => materialTag :: RenderScene.materialTags rest
  | _ :: rest => RenderScene.materialTags rest

/-! ## Concrete scenes used as examples -/

/-- A registry with two textures loaded into an array of four slots. -/
def registryTableMetal : SceneManager ℚ :=
  { m_pShaderManager := none
    m_loadedTextures := 2
    m_textureIDs := [⟨"Table", 7⟩, ⟨"Metal_S", 9⟩, ⟨"", 0⟩, ⟨"", 0⟩]
    m_objectMaterials := [] }

/-- A decoder that reports every file as a 64x64 RGB image. -/
def decodeRGB : String → Option STBImage :=
  fun _ => some ⟨64, 64, 3⟩

/-- A decoder that reports every file as a 64x64 single-channel image. -/
def decodeGray : String → Option STBImage :=
  fun _ => some ⟨64, 64, 1⟩

/-- A context in which the names 7 and 9 have been generated and 11 comes next. -/
def contextTwoNames : GLState :=
  { generated := [7, 9]
    nextName := fun _ => 11
    activeTexture := 0
    boundTexture2D := fun _ => 0
    textures := fun _ => ⟨[], none, false⟩ }

/-- A material with every component zero and an empty tag. -/
def materialZero : OBJECT_MATERIAL ℚ :=
  { ambientColor := ⟨0.0, 0.0, 0.0⟩, ambientStrength := 0.0, diffuseColor := ⟨0.0, 0.0, 0.0⟩,
    specularColor := ⟨0.0, 0.0, 0.0⟩, shininess := 0.0, tag := "" }

/-- The scene manager after `DefineObjectMaterials`, with a shader manager attached
in which no uniform has been set yet, and two textures loaded. -/
def sceneWithMaterials : SceneManager ℚ :=
  SceneManager.DefineObjectMaterials
    { m_pShaderManager := some ⟨fun _ => none⟩
      m_loadedTextures := 2
      m_textureIDs := [⟨"Table", 7⟩, ⟨"Metal_S", 9⟩, ⟨"", 0⟩, ⟨"", 0⟩]
      m_objectMaterials := [] }

/-- A shader manager in which texturing is on and the sampler is set to slot 1. -/
def shaderTextured : ShaderManager ℚ :=
  { uniforms := fun k =>
      if k = "bUseTexture" then some (.int 1)
      else if k = "objectTexture" then some (.int 1)
      else none }

/-- A scene manager with no texture loaded into an array of sixteen slots, no material
defined, and a shader manager attached in which no uniform has been set. -/
def sceneEmpty : SceneManager ℚ :=
  { m_pShaderManager := some ⟨fun _ => none⟩
    m_loadedTextures := 0
    m_textureIDs := List.replicate 16 ⟨"", 0⟩
    m_objectMaterials := [] }

/-- A context in which the names 7 and 9 have been generated and each further name is
20 plus the number of names generated so far. -/
def contextCounting : GLState :=
  { generated := [7, 9]
    nextName := fun names => ⟨(20 + names.length) % 4294967296, Nat.mod_lt _ (by decide)⟩
    activeTexture := 0
    boundTexture2D := fun _ => 0
    textures := fun _ => ⟨[], none, false⟩ }

/-! ## Lemmas on the lookup loops -/

theorem FindTextureSlot_loop_found (ids : List TEXTURE_INFO) (n : Nat) (tag : String)
    (slot : Int) (index : Nat) :
    FindTextureSlot.loop ids n tag slot index true = some slot := by
  rw [FindTextureSlot.loop]
  simp

theorem FindTextureSlot_loop_miss (ids : List TEXTURE_INFO) (n : Nat) (tag : String)
    (slot : Int) (hn : n ≤ ids.length) :
    ∀ (k index : Nat), n - index = k →
      (∀ j e, index ≤ j → j < n → ids[j]? = some e → e.tag ≠ tag) →
      FindTextureSlot.loop ids n tag slot index false = some slot := by
  intro k
  induction k with
  | zero =>
    intro index hk _
    rw [FindTextureSlot.loop]
    have : ¬ index < n := by omega
    simp [this]
  | succ k ih =>
    intro index hk hne
    have hlt : index < n := by omega
    have hlen : index < ids.length := by omega
    rw [FindTextureSlot.loop]
    have hget : ids[index]? = some ids[index] := List.getElem?_eq_getElem hlen
    have htag : ids[index].tag ≠ tag := hne index _ (Nat.le_refl _) hlt hget
    simp only [hlt, true_and, hget, if_neg htag, if_true]
    exact ih (index + 1) (by omega) (fun j e hj hjn he => hne j e (by omega) hjn he)

theorem FindTextureSlot_loop_hit (ids : List TEXTURE_INFO) (n : Nat) (tag : String)
    (slot : Int) (i : Nat) (e : TEXTURE_INFO) (hi : i < n) (he : ids[i]? = some e)
    (ht : e.tag = tag) :
    ∀ (k index : Nat), i - index = k → index ≤ i →
      (∀ j e', index ≤ j → j < i → ids[j]? = some e' → e'.tag ≠ tag) →
      FindTextureSlot.loop ids n tag slot index false = some (i : Int) := by
  intro k
  induction k with
  | zero =>
    intro index hk hle _
    have hidx : index = i := by omega
    subst hidx
    rw [FindTextureSlot.loop]
    simp only [hi, true_and, he, if_pos ht, if_true]
    exact FindTextureSlot_loop_found ids n tag _ _
  | succ k ih =>
    intro index hk hle hne
    have hlt : index < n := by omega
    have hilen : i < ids.length := by
      rcases Nat.lt_or_ge i ids.length with h | h
      · exact h
      · rw [List.getElem?_eq_none h] at he
        cases he
    have hlen : index < ids.length := by omega
    rw [FindTextureSlot.loop]
    have hget : ids[index]? = some ids[index] := List.getElem?_eq_getElem hlen
    have htag : ids[index].tag ≠ tag := hne index _ (Nat.le_refl _) (by omega) hget
    simp only [hlt, true_and, hget, if_neg htag, if_true]
    exact ih (index + 1) (by omega) (by omega)
      (fun j e' hj hji he' => hne j e' (by omega) hji he')

theorem FindTextureID_loop_found (ids : List TEXTURE_INFO) (n : Nat) (tag : String)
    (textureID : Int) (index : Nat) :
    FindTextureID.loop ids n tag textureID index true = some textureID := by
  rw [FindTextureID.loop]
  simp

theorem FindTextureID_loop_miss (ids : List TEXTURE_INFO) (n : Nat) (tag : String)
    (textureID : Int) (hn : n ≤ ids.length) :
    ∀ (k index : Nat), n - index = k →
      (∀ j e, index ≤ j → j < n → ids[j]? = some e → e.tag ≠ tag) →
      FindTextureID.loop ids n tag textureID index false = some textureID := by
  intro k
  induction k with
  | zero =>
    intro index hk _
    rw [FindTextureID.loop]
    have : ¬ index < n := by omega
    simp [this]
  | succ k ih =>
    intro index hk hne
    have hlt : index < n := by omega
    have hlen : index < ids.length := by omega
    rw [FindTextureID.loop]
    have hget : ids[index]? = some ids[index] := List.getElem?_eq_getElem hlen
    have htag : ids[index].tag ≠ tag := hne index _ (Nat.le_refl _) hlt hget
    simp only [hlt, true_and, hget, if_neg htag, if_true]
    exact ih (index + 1) (by omega) (fun j e hj hjn he => hne j e (by omega) hjn he)

theorem FindTextureID_loop_hit (ids : List TEXTURE_INFO) (n : Nat) (tag : String)
    (textureID : Int) (i : Nat) (e : TEXTURE_INFO) (hi : i < n) (he : ids[i]? = some e)
    (ht : e.tag = tag) :
    ∀ (k index : Nat), i - index = k → index ≤ i →
      (∀ j e', index ≤ j → j < i → ids[j]? = some e' → e'.tag ≠ tag) →
      FindTextureID.loop ids n tag textureID index false = some (intOfGLuint e.ID) := by
  intro k
  induction k with
  | zero =>
    intro index hk hle _
    have hidx : index = i := by omega
    subst hidx
    rw [FindTextureID.loop]
    simp only [hi, true_and, he, if_pos ht, if_true]
    exact FindTextureID_loop_found ids n tag _ _
  | succ k ih =>
    intro index hk hle hne
    have hlt : index < n := by omega
    have hilen : i < ids.length := by
      rcases Nat.lt_or_ge i ids.length with h | h
      · exact h
      · rw [List.getElem?_eq_none h] at he
        cases he
    have hlen : index < ids.length := by omega
    rw [FindTextureID.loop]
    have hget : ids[index]? = some ids[index] := List.getElem?_eq_getElem hlen
    have htag : ids[index].tag ≠ tag := hne index _ (Nat.le_refl _) (by omega) hget
    simp only [hlt, true_and, hget, if_neg htag, if_true]
    exact ih (index + 1) (by omega) (by omega)
      (fun j e' hj hji he' => hne j e' (by omega) hji he')

/-- Among the slots in use that carry a tag there is a first one. -/
theorem exists_first_slot (ids : List TEXTURE_INFO) (n : Nat) (tag : String)
    (h : ∃ i e, i < n ∧ ids[i]? = some e ∧ e.tag = tag) :
    ∃ i e, i < n ∧ ids[i]? = some e ∧ e.tag = tag ∧
      ∀ j e', j < i → ids[j]? = some e' → e'.tag ≠ tag := by
  classical
  have hex : ∃ i, ∃ e, i < n ∧ ids[i]? = some e ∧ e.tag = tag := h
  obtain ⟨e, hi, he, ht⟩ := Nat.find_spec hex
  refine ⟨Nat.find hex, e, hi, he, ht, ?_⟩
  intro j e' hj he' ht'
  exact Nat.find_min hex hj ⟨e', by omega, he', ht'⟩

/-- Converting a texture name to `int` and back gives the name again. -/
theorem GLuintOfInt_intOfGLuint (x : GLuint) : GLuintOfInt (intOfGLuint x) = x := by
  apply Fin.ext
  have hx := x.isLt
  unfold GLuintOfInt intOfGLuint
  simp only
  split <;> omega

/-- What both texture lookups return, in terms of the first slot in use carrying the tag. -/
theorem FindTexture_first_slot {F : Type} (this : SceneManager F) (tag : String)
    (i : Nat) (e : TEXTURE_INFO) (hi : i < this.m_loadedTextures)
    (he : this.m_textureIDs[i]? = some e) (ht : e.tag = tag)
    (hfirst : ∀ j e', j < i → this.m_textureIDs[j]? = some e' → e'.tag ≠ tag) :
    this.FindTextureSlot tag = some (i : Int) ∧
      this.FindTextureID tag = some (intOfGLuint e.ID) := by
  constructor
  · exact FindTextureSlot_loop_hit _ _ tag _ i e hi he ht i 0 (by omega) (by omega)
      (fun j e' _ hji he' => hfirst j e' hji he')
  · exact FindTextureID_loop_hit _ _ tag _ i e hi he ht i 0 (by omega) (by omega)
      (fun j e' _ hji he' => hfirst j e' hji he')

/-- What both texture lookups return when no slot in use carries the tag. -/
theorem FindTexture_no_slot {F : Type} (this : SceneManager F) (tag : String)
    (hwf : this.m_loadedTextures ≤ this.m_textureIDs.length)
    (hno : ∀ i e, i < this.m_loadedTextures → this.m_textureIDs[i]? = some e → e.tag ≠ tag) :
    this.FindTextureSlot tag = some (-1) ∧ this.FindTextureID tag = some (-1) := by
  constructor
  · exact FindTextureSlot_loop_miss _ _ tag _ hwf _ 0 rfl
      (fun j e _ hjn he => hno j e hjn he)
  · exact FindTextureID_loop_miss _ _ tag _ hwf _ 0 rfl
      (fun j e _ hjn he => hno j e hjn he)

/-! ## The texture registry: lookups -/

/-- C1: for every texture registry (count of loaded textures within the array) and
every tag, if some slot in use carries the tag then `FindTextureSlot` returns the
smallest such index `i` and `FindTextureID` returns the ID stored at index `i`
(as the `int` it is returned as, from which the stored name is recovered); if no
slot in use carries the tag, both return `-1`. -/
theorem FindTexture_first_match {F : Type} (this : SceneManager F) (tag : String)
    (hwf : this.m_loadedTextures ≤ this.m_textureIDs.length) :
    ((∃ i e, i < this.m_loadedTextures ∧ this.m_textureIDs[i]? = some e ∧ e.tag = tag) →
      ∃ i e, i < this.m_loadedTextures ∧ this.m_textureIDs[i]? = some e ∧ e.tag = tag ∧
        (∀ j e', j < i → this.m_textureIDs[j]? = some e' → e'.tag ≠ tag) ∧
        this.FindTextureSlot tag = some (i : Int) ∧
        this.FindTextureID tag = some (intOfGLuint e.ID) ∧
        GLuintOfInt (intOfGLuint e.ID) = e.ID) ∧
    ((∀ i e, i < this.m_loadedTextures → this.m_textureIDs[i]? = some e → e.tag ≠ tag) →
      this.FindTextureSlot tag = some (-1) ∧ this.FindTextureID tag = some (-1)) := by
  constructor
  · intro h
    obtain ⟨i, e, hi, he, ht, hfirst⟩ := exists_first_slot _ _ tag h
    have hres := FindTexture_first_slot this tag i e hi he ht hfirst
    exact ⟨i, e, hi, he, ht, hfirst, hres.1, hres.2, GLuintOfInt_intOfGLuint e.ID⟩
  · intro hno
    exact FindTexture_no_slot this tag hwf hno

/-- C1 at a concrete registry: with "Table" and "Metal_S" loaded in that order,
"Metal_S" is found in slot 1 with its ID 9, and "Paper" is not found. -/
theorem FindTexture_first_match_witness :
    registryTableMetal.m_loadedTextures ≤ registryTableMetal.m_textureIDs.length ∧
    registryTableMetal.FindTextureSlot "Metal_S" = some 1 ∧
    registryTableMetal.FindTextureID "Metal_S" = some 9 ∧
    registryTableMetal.FindTextureSlot "Paper" = some (-1) ∧
    registryTableMetal.FindTextureID "Paper" = some (-1) := by
  have hwf : registryTableMetal.m_loadedTextures ≤ registryTableMetal.m_textureIDs.length := by
    decide
  obtain ⟨i, e, hi, he, ht, -, hs, hid, -⟩ :=
    (FindTexture_first_match registryTableMetal "Metal_S" hwf).1
      ⟨1, ⟨"Metal_S", 9⟩, by decide, rfl, rfl⟩
  have hpaper := (FindTexture_first_match registryTableMetal "Paper" hwf).2 (by
    intro j e' hj he'
    simp only [registryTableMetal] at hj he'
    interval_cases j <;> simp at he' <;> subst he' <;> decide)
  have hie : i = 1 ∧ e = ⟨"Metal_S", 9⟩ := by
    simp only [registryTableMetal] at hi he
    interval_cases i <;> simp at he <;> subst he <;> simp at ht ⊢
  obtain ⟨rfl, rfl⟩ := hie
  exact ⟨hwf, hs, hid, hpaper.1, hpaper.2⟩

/-! ## The texture registry: loading -/

theorem CreateGLTexture_register_room {F : Type} (gl : GLState) (this : SceneManager F)
    (textureID : GLuint) (tag : String)
    (hroom : this.m_loadedTextures < this.m_textureIDs.length) :
    CreateGLTexture.register gl this textureID tag =
      some (true, glBindTexture (glGenerateMipmap gl) 0, this.registered textureID tag) := by
  simp [CreateGLTexture.register, hroom, SceneManager.registered]

theorem CreateGLTexture_register_true {F : Type} (gl gl' : GLState)
    (this this' : SceneManager F) (textureID : GLuint) (tag : String)
    (h : CreateGLTexture.register gl this textureID tag = some (true, gl', this')) :
    this.m_loadedTextures < this.m_textureIDs.length ∧
      this' = this.registered textureID tag := by
  unfold CreateGLTexture.register at h
  by_cases hroom : this.m_loadedTextures < this.m_textureIDs.length
  · simp only [hroom, if_true, Option.some.injEq, Prod.mk.injEq, true_and] at h
    exact ⟨hroom, h.2.symm⟩
  · simp [hroom] at h

/-- With room in the array and an image of 3 or 4 channels the call succeeds, and
registers the name just generated. -/
theorem CreateGLTexture_success {F : Type} (this : SceneManager F)
    (stbi_load : String → Option STBImage) (gl : GLState) (filename tag : String)
    (image : STBImage) (hroom : this.m_loadedTextures < this.m_textureIDs.length)
    (himg : stbi_load filename = some image)
    (hch : image.colorChannels = 3 ∨ image.colorChannels = 4) :
    ∃ gl', this.CreateGLTexture stbi_load gl filename tag =
      some (true, gl', this.registered (glGenTextures gl).1 tag) := by
  unfold SceneManager.CreateGLTexture
  rw [himg]
  rcases hch with h3 | h4
  · simp only [h3, if_true]
    exact ⟨_, CreateGLTexture_register_room _ this _ tag hroom⟩
  · have h43 : ¬ ((4 : Int) = 3) := by decide
    simp only [h4, h43, if_false, if_true]
    exact ⟨_, CreateGLTexture_register_room _ this _ tag hroom⟩

/-- A call that returns `true` had room in the array and registered the name just
generated. -/
theorem CreateGLTexture_true {F : Type} (this this' : SceneManager F)
    (stbi_load : String → Option STBImage) (gl gl' : GLState) (filename tag : String)
    (h : this.CreateGLTexture stbi_load gl filename tag = some (true, gl', this')) :
    this.m_loadedTextures < this.m_textureIDs.length ∧
      this' = this.registered (glGenTextures gl).1 tag := by
  unfold SceneManager.CreateGLTexture at h
  cases himg : stbi_load filename with
  | none => simp [himg] at h
  | some image =>
    rw [himg] at h
    simp only at h
    by_cases h3 : image.colorChannels = 3
    · rw [if_pos h3] at h
      exact CreateGLTexture_register_true _ _ _ _ _ _ h
    · rw [if_neg h3] at h
      by_cases h4 : image.colorChannels = 4
      · rw [if_pos h4] at h
        exact CreateGLTexture_register_true _ _ _ _ _ _ h
      · rw [if_neg h4] at h
        simp at h

/-- Registration leaves the slots below the old count as they were. -/
theorem registered_getElem?_lt {F : Type} (this : SceneManager F) (textureID : GLuint)
    (tag : String) (j : Nat) (hj : j < this.m_loadedTextures) :
    (this.registered textureID tag).m_textureIDs[j]? = this.m_textureIDs[j]? := by
  simp only [SceneManager.registered]
  exact List.getElem?_set_ne (by omega)

/-- Registration puts the new entry at the old count. -/
theorem registered_getElem?_new {F : Type} (this : SceneManager F) (textureID : GLuint)
    (tag : String) (hroom : this.m_loadedTextures < this.m_textureIDs.length) :
    (this.registered textureID tag).m_textureIDs[this.m_loadedTextures]? =
      some ⟨tag, textureID⟩ := by
  simp only [SceneManager.registered]
  exact List.getElem?_set_self hroom

/-- After registering a tag no slot in use carried, both lookups find the new slot. -/
theorem registered_find_new {F : Type} (this : SceneManager F) (textureID : GLuint)
    (tag : String) (hroom : this.m_loadedTextures < this.m_textureIDs.length)
    (hnew : ∀ i e, i < this.m_loadedTextures → this.m_textureIDs[i]? = some e → e.tag ≠ tag) :
    (this.registered textureID tag).FindTextureSlot tag = some (this.m_loadedTextures : Int) ∧
      (this.registered textureID tag).FindTextureID tag = some (intOfGLuint textureID) := by
  apply FindTexture_first_slot (this.registered textureID tag) tag this.m_loadedTextures
    ⟨tag, textureID⟩
  · simp [SceneManager.registered]
  · exact registered_getElem?_new this textureID tag hroom
  · rfl
  · intro j e' hj he'
    rw [registered_getElem?_lt this textureID tag j hj] at he'
    exact hnew j e' hj he'

/-- A tag whose first slot is `i` keeps that slot and ID after any registration. -/
theorem registered_find_old {F : Type} (this : SceneManager F) (textureID : GLuint)
    (tag tag' : String) (i : Nat) (e : TEXTURE_INFO) (hi : i < this.m_loadedTextures)
    (he : this.m_textureIDs[i]? = some e) (ht : e.tag = tag)
    (hfirst : ∀ j e', j < i → this.m_textureIDs[j]? = some e' → e'.tag ≠ tag) :
    (this.registered textureID tag').FindTextureSlot tag = some (i : Int) ∧
      (this.registered textureID tag').FindTextureID tag = some (intOfGLuint e.ID) := by
  apply FindTexture_first_slot (this.registered textureID tag') tag i e
  · simp only [SceneManager.registered]
    omega
  · rw [registered_getElem?_lt this textureID tag' i hi]
    exact he
  · exact ht
  · intro j e' hj he'
    rw [registered_getElem?_lt this textureID tag' j (by omega)] at he'
    exact hfirst j e' hj he'

/-- With room in the array and an image of 3 or 4 channels the call succeeds; the
context it leaves has one more generated name, the one registered, whose texture
object holds the image in the format of its channel count, the four sampling
parameters and mipmaps; the texture is unbound again on the active unit, and every
other unit and every other texture object is as before. -/
theorem CreateGLTexture_success_context {F : Type} (this : SceneManager F)
    (stbi_load : String → Option STBImage) (gl : GLState) (filename tag : String)
    (image : STBImage) (hroom : this.m_loadedTextures < this.m_textureIDs.length)
    (himg : stbi_load filename = some image)
    (hch : image.colorChannels = 3 ∨ image.colorChannels = 4) :
    ∃ gl', this.CreateGLTexture stbi_load gl filename tag =
        some (true, gl', this.registered (glGenTextures gl).1 tag) ∧
      gl'.generated = gl.generated ++ [(glGenTextures gl).1] ∧
      (gl'.textures (glGenTextures gl).1).image =
        some ⟨if image.colorChannels = 3 then .GL_RGB8 else .GL_RGBA8, image.width,
          image.height, if image.colorChannels = 3 then .GL_RGB else .GL_RGBA⟩ ∧
      (gl'.textures (glGenTextures gl).1).parameters =
        [(.GL_TEXTURE_MAG_FILTER, .GL_LINEAR), (.GL_TEXTURE_MIN_FILTER, .GL_LINEAR),
          (.GL_TEXTURE_WRAP_T, .GL_REPEAT), (.GL_TEXTURE_WRAP_S, .GL_REPEAT)] ++
          (gl.textures (glGenTextures gl).1).parameters ∧
      (gl'.textures (glGenTextures gl).1).mipmaps = true ∧
      (∀ name, name ≠ (glGenTextures gl).1 → gl'.textures name = gl.textures name) ∧
      gl'.activeTexture = gl.activeTexture ∧
      gl'.boundTexture2D gl.activeTexture = 0 ∧
      (∀ u, u ≠ gl.activeTexture → gl'.boundTexture2D u = gl.boundTexture2D u) := by
  unfold SceneManager.CreateGLTexture
  rw [himg]
  rcases hch with h3 | h4
  · simp only [h3, if_true]
    refine ⟨_, CreateGLTexture_register_room _ this _ tag hroom, ?_, ?_, ?_, ?_, ?_, ?_, ?_, ?_⟩
    · simp [glBindTexture, glGenerateMipmap, glTexImage2D, glTexParameteri,
        GLState.onBoundTexture, glGenTextures]
    · simp [glBindTexture, glGenerateMipmap, glTexImage2D, glTexParameteri,
        GLState.onBoundTexture, glGenTextures]
    · simp [glBindTexture, glGenerateMipmap, glTexImage2D, glTexParameteri,
        GLState.onBoundTexture, glGenTextures]
    · simp [glBindTexture, glGenerateMipmap, glTexImage2D, glTexParameteri,
        GLState.onBoundTexture, glGenTextures]
    · intro name hname
      simp [glBindTexture, glGenerateMipmap, glTexImage2D, glTexParameteri,
        GLState.onBoundTexture, glGenTextures] at hname ⊢
      simp [hname]
    · simp [glBindTexture, glGenerateMipmap, glTexImage2D, glTexParameteri,
        GLState.onBoundTexture, glGenTextures]
    · simp [glBindTexture, glGenerateMipmap, glTexImage2D, glTexParameteri,
        GLState.onBoundTexture, glGenTextures]
    · intro u hu
      simp [glBindTexture, glGenerateMipmap, glTexImage2D, glTexParameteri,
        GLState.onBoundTexture, glGenTextures, hu]
  · have h43 : ¬ ((4 : Int) = 3) := by decide
    simp only [h4, h43, if_false, if_true]
    refine ⟨_, CreateGLTexture_register_room _ this _ tag hroom, ?_, ?_, ?_, ?_, ?_, ?_, ?_, ?_⟩
    · simp [glBindTexture, glGenerateMipmap, glTexImage2D, glTexParameteri,
        GLState.onBoundTexture, glGenTextures]
    · simp [glBindTexture, glGenerateMipmap, glTexImage2D, glTexParameteri,
        GLState.onBoundTexture, glGenTextures]
    · simp [glBindTexture, glGenerateMipmap, glTexImage2D, glTexParameteri,
        GLState.onBoundTexture, glGenTextures]
    · simp [glBindTexture, glGenerateMipmap, glTexImage2D, glTexParameteri,
        GLState.onBoundTexture, glGenTextures]
    · intro name hname
      simp [glBindTexture, glGenerateMipmap, glTexImage2D, glTexParameteri,
        GLState.onBoundTexture, glGenTextures] at hname ⊢
      simp [hname]
    · simp [glBindTexture, glGenerateMipmap, glTexImage2D, glTexParameteri,
        GLState.onBoundTexture, glGenTextures]
    · simp [glBindTexture, glGenerateMipmap, glTexImage2D, glTexParameteri,
        GLState.onBoundTexture, glGenTextures]
    · intro u hu
      simp [glBindTexture, glGenerateMipmap, glTexImage2D, glTexParameteri,
        GLState.onBoundTexture, glGenTextures, hu]

/-- C2: for every registry with room for one more entry, every tag carried by no
slot in use and every image that decodes with 3 or 4 channels, `CreateGLTexture`
returns `true`, and afterwards `FindTextureID(tag)` is the name `glGenTextures`
generated in the call (as the `int` it is returned as, from which the name is
recovered) and `FindTextureSlot(tag)` is the number of textures loaded before.  That
name is the one the call added to the names generated in the context, and its texture
object holds the decoded image (RGB8 for 3 channels, RGBA8 for 4, with the image's
width and height), the four sampling parameters and mipmaps; the texture is unbound
again, and every other texture object and every other unit is as before. -/
theorem CreateGLTexture_then_find {F : Type} (this : SceneManager F)
    (stbi_load : String → Option STBImage) (gl : GLState) (filename tag : String)
    (image : STBImage) (hroom : this.m_loadedTextures < this.m_textureIDs.length)
    (hnew : ∀ i e, i < this.m_loadedTextures → this.m_textureIDs[i]? = some e → e.tag ≠ tag)
    (himg : stbi_load filename = some image)
    (hch : image.colorChannels = 3 ∨ image.colorChannels = 4) :
    ∃ gl' this', this.CreateGLTexture stbi_load gl filename tag = some (true, gl', this') ∧
      this'.FindTextureID tag = some (intOfGLuint (glGenTextures gl).1) ∧
      GLuintOfInt (intOfGLuint (glGenTextures gl).1) = (glGenTextures gl).1 ∧
      this'.FindTextureSlot tag = some (this.m_loadedTextures : Int) ∧
      gl'.generated = gl.generated ++ [(glGenTextures gl).1] ∧
      (gl'.textures (glGenTextures gl).1).image =
        some ⟨if image.colorChannels = 3 then .GL_RGB8 else .GL_RGBA8, image.width,
          image.height, if image.colorChannels = 3 then .GL_RGB else .GL_RGBA⟩ ∧
      (gl'.textures (glGenTextures gl).1).parameters =
        [(.GL_TEXTURE_MAG_FILTER, .GL_LINEAR), (.GL_TEXTURE_MIN_FILTER, .GL_LINEAR),
          (.GL_TEXTURE_WRAP_T, .GL_REPEAT), (.GL_TEXTURE_WRAP_S, .GL_REPEAT)] ++
          (gl.textures (glGenTextures gl).1).parameters ∧
      (gl'.textures (glGenTextures gl).1).mipmaps = true ∧
      (∀ name, name ≠ (glGenTextures gl).1 → gl'.textures name = gl.textures name) ∧
      gl'.activeTexture = gl.activeTexture ∧
      gl'.boundTexture2D gl.activeTexture = 0 ∧
      (∀ u, u ≠ gl.activeTexture → gl'.boundTexture2D u = gl.boundTexture2D u) ∧
      this'.m_loadedTextures = this.m_loadedTextures + 1 ∧
      this'.m_textureIDs[this.m_loadedTextures]? = some ⟨tag, (glGenTextures gl).1⟩ := by
  obtain ⟨gl', hcall, hgen, himage, hparams, hmip, hothers, hactive, hunbound, hunits⟩ :=
    CreateGLTexture_success_context this stbi_load gl filename tag image hroom himg hch
  have hfind := registered_find_new this (glGenTextures gl).1 tag hroom hnew
  exact ⟨gl', _, hcall, hfind.2, GLuintOfInt_intOfGLuint _, hfind.1, hgen, himage, hparams,
    hmip, hothers, hactive, hunbound, hunits, rfl,
    registered_getElem?_new this _ tag hroom⟩

/-- C2 at a concrete registry: loading "Paper" after "Table" and "Metal_S" in a context
where 7 and 9 have been generated and 11 comes next makes the ID lookup return 11 and
the slot lookup return 2; the names generated are then 7, 9, 11 and the texture 11
holds the 64x64 RGB image. -/
theorem CreateGLTexture_then_find_witness :
    registryTableMetal.m_loadedTextures < registryTableMetal.m_textureIDs.length ∧
    decodeRGB "PPAPER.jpg" = some ⟨64, 64, 3⟩ ∧
    contextTwoNames.generated = [7, 9] ∧
    (contextTwoNames.textures 11).image = none ∧
    ∃ gl' this', registryTableMetal.CreateGLTexture decodeRGB contextTwoNames "PPAPER.jpg"
        "Paper" = some (true, gl', this') ∧
      this'.FindTextureID "Paper" = some 11 ∧
      GLuintOfInt 11 = 11 ∧
      this'.FindTextureSlot "Paper" = some 2 ∧
      gl'.generated = [7, 9, 11] ∧
      (gl'.textures 11).image = some ⟨.GL_RGB8, 64, 64, .GL_RGB⟩ ∧
      (gl'.textures 11).mipmaps = true ∧
      gl'.boundTexture2D 0 = 0 ∧
      this'.m_loadedTextures = 3 ∧
      this'.m_textureIDs[2]? = some ⟨"Paper", 11⟩ := by
  obtain ⟨gl', this', hcall, hid, hround, hslot, hgen, himage, -, hmip, -, -, hunbound, -,
      hcount, hentry⟩ :=
    CreateGLTexture_then_find registryTableMetal decodeRGB contextTwoNames "PPAPER.jpg" "Paper"
      ⟨64, 64, 3⟩ (by decide)
      (by
        intro j e' hj he'
        simp only [registryTableMetal] at hj he'
        interval_cases j <;> simp at he' <;> subst he' <;> decide)
      rfl (Or.inl rfl)
  exact ⟨by decide, rfl, rfl, rfl, gl', this', hcall, hid, hround, hslot, hgen, himage, hmip,
    hunbound, hcount, hentry⟩

/-- C3: for every registry and every tag carried by a slot in use, any call of
`CreateGLTexture` that returns `true` (with any tag, the same one included) leaves
`FindTextureSlot(tag)` and `FindTextureID(tag)` as they were, and the slot is the
first index of the array carrying the tag. -/
theorem CreateGLTexture_slot_stable {F : Type} (this this' : SceneManager F)
    (stbi_load : String → Option STBImage) (gl gl' : GLState) (filename tag tag' : String)
    (hreg : ∃ i e, i < this.m_loadedTextures ∧ this.m_textureIDs[i]? = some e ∧ e.tag = tag)
    (hcall : this.CreateGLTexture stbi_load gl filename tag' = some (true, gl', this')) :
    this'.FindTextureSlot tag = this.FindTextureSlot tag ∧
    this'.FindTextureID tag = this.FindTextureID tag ∧
    ∃ i e, i < this.m_loadedTextures ∧ this.m_textureIDs[i]? = some e ∧ e.tag = tag ∧
      (∀ j e', j < i → this.m_textureIDs[j]? = some e' → e'.tag ≠ tag) ∧
      this'.FindTextureSlot tag = some (i : Int) ∧
      this'.FindTextureID tag = some (intOfGLuint e.ID) := by
  obtain ⟨i, e, hi, he, ht, hfirst⟩ := exists_first_slot _ _ tag hreg
  obtain ⟨-, hthis'⟩ := CreateGLTexture_true this this' stbi_load gl gl' filename tag' hcall
  have hbefore := FindTexture_first_slot this tag i e hi he ht hfirst
  have hafter := registered_find_old this (glGenTextures gl).1 tag tag' i e hi he ht hfirst
  rw [← hthis'] at hafter
  exact ⟨hafter.1.trans hbefore.1.symm, hafter.2.trans hbefore.2.symm,
    i, e, hi, he, ht, hfirst, hafter.1, hafter.2⟩

/-- C3 at a concrete registry: loading a second texture under the tag "Table" leaves
"Table" resolving to slot 0 and ID 7, where it was first registered. -/
theorem CreateGLTexture_slot_stable_witness :
    ∃ gl' this', registryTableMetal.CreateGLTexture decodeRGB contextTwoNames "WoodTab.jpg"
        "Table" = some (true, gl', this') ∧
      this'.m_loadedTextures = 3 ∧
      this'.FindTextureSlot "Table" = some 0 ∧
      this'.FindTextureID "Table" = some 7 := by
  obtain ⟨gl', hcall⟩ := CreateGLTexture_success registryTableMetal decodeRGB contextTwoNames
    "WoodTab.jpg" "Table" ⟨64, 64, 3⟩ (by decide) rfl (Or.inl rfl)
  obtain ⟨-, -, i, e, hi, he, ht, hfirst, hs, hid⟩ :=
    CreateGLTexture_slot_stable registryTableMetal _ decodeRGB contextTwoNames gl'
      "WoodTab.jpg" "Table" "Table" ⟨0, ⟨"Table", 7⟩, by decide, rfl, rfl⟩ hcall
  have hie : i = 0 ∧ e = ⟨"Table", 7⟩ := by
    simp only [registryTableMetal] at hi he
    interval_cases i <;> simp at he <;> subst he <;> simp at ht ⊢
  obtain ⟨rfl, rfl⟩ := hie
  exact ⟨gl', _, hcall, rfl, hs, hid⟩

/-- C4: when the image cannot be decoded, or decodes with a channel count other than
3 or 4, `CreateGLTexture` returns `false` and the scene manager (the count of loaded
textures and every slot of the array with it) is what it was before the call. -/
theorem CreateGLTexture_failure_atomic {F : Type} (this : SceneManager F)
    (stbi_load : String → Option STBImage) (gl : GLState) (filename tag : String)
    (hfail : stbi_load filename = none ∨
      ∃ image, stbi_load filename = some image ∧
        image.colorChannels ≠ 3 ∧ image.colorChannels ≠ 4) :
    ∃ gl', this.CreateGLTexture stbi_load gl filename tag = some (false, gl', this) := by
  unfold SceneManager.CreateGLTexture
  rcases hfail with hnone | ⟨image, himg, h3, h4⟩
  · rw [hnone]
    exact ⟨gl, rfl⟩
  · rw [himg]
    simp only [if_neg h3, if_neg h4]
    exact ⟨_, rfl⟩

/-- C4 at a concrete call: a single-channel image is refused and the registry of two
textures is returned as it was. -/
theorem CreateGLTexture_failure_atomic_witness :
    decodeGray "Gray.jpg" = some ⟨64, 64, 1⟩ ∧
    ∃ gl', registryTableMetal.CreateGLTexture decodeGray contextTwoNames "Gray.jpg" "Gray" =
      some (false, gl', registryTableMetal) :=
  ⟨rfl, CreateGLTexture_failure_atomic registryTableMetal decodeGray contextTwoNames
    "Gray.jpg" "Gray" (Or.inr ⟨⟨64, 64, 1⟩, rfl, by decide, by decide⟩)⟩

/-! ## The material catalog: lookup -/

theorem FindMaterial_loop_found {F : Type} (l : List (OBJECT_MATERIAL F)) (tag : String)
    (material : OBJECT_MATERIAL F) (index : Nat) :
    FindMaterial.loop l tag material index true = (true, material) := by
  rw [FindMaterial.loop]
  simp

theorem FindMaterial_loop_miss {F : Type} (l : List (OBJECT_MATERIAL F)) (tag : String)
    (material : OBJECT_MATERIAL F) :
    ∀ (k index : Nat), l.length - index = k →
      (∀ j e, index ≤ j → l[j]? = some e → e.tag ≠ tag) →
      FindMaterial.loop l tag material index false = (false, material) := by
  intro k
  induction k with
  | zero =>
    intro index hk _
    rw [FindMaterial.loop]
    have : ¬ index < l.length := by omega
    simp [this]
  | succ k ih =>
    intro index hk hne
    have hlt : index < l.length := by omega
    rw [FindMaterial.loop]
    have htag : (l.get ⟨index, hlt⟩).tag ≠ tag :=
      hne index _ (Nat.le_refl _) (List.getElem?_eq_getElem hlt)
    rw [dif_pos ⟨hlt, rfl⟩, if_neg htag]
    exact ih (index + 1) (by omega) (fun j e hj he => hne j e (by omega) he)

theorem FindMaterial_loop_hit {F : Type} (l : List (OBJECT_MATERIAL F)) (tag : String)
    (material : OBJECT_MATERIAL F) (i : Nat) (e : OBJECT_MATERIAL F)
    (he : l[i]? = some e) (ht : e.tag = tag) :
    ∀ (k index : Nat), i - index = k → index ≤ i →
      (∀ j e', index ≤ j → j < i → l[j]? = some e' → e'.tag ≠ tag) →
      FindMaterial.loop l tag material index false = (true, material.assignFrom e) := by
  have hil : i < l.length := by
    rcases Nat.lt_or_ge i l.length with h | h
    · exact h
    · rw [List.getElem?_eq_none h] at he
      cases he
  have hget : l.get ⟨i, hil⟩ = e := by
    rw [List.getElem?_eq_getElem hil] at he
    exact Option.some.inj he
  intro k
  induction k with
  | zero =>
    intro index hk hle _
    have hidx : index = i := by omega
    subst hidx
    rw [FindMaterial.loop]
    have htag : (l.get ⟨index, hil⟩).tag = tag := by rw [hget]; exact ht
    rw [dif_pos ⟨hil, rfl⟩, if_pos htag, hget]
    exact FindMaterial_loop_found l tag _ _
  | succ k ih =>
    intro index hk hle hne
    have hlt : index < l.length := by omega
    rw [FindMaterial.loop]
    have htag : (l.get ⟨index, hlt⟩).tag ≠ tag :=
      hne index _ (Nat.le_refl _) (by omega) (List.getElem?_eq_getElem hlt)
    rw [dif_pos ⟨hlt, rfl⟩, if_neg htag]
    exact ih (index + 1) (by omega) (by omega)
      (fun j e' hj hji he' => hne j e' (by omega) hji he')

/-- Among the catalog entries that carry a tag there is a first one. -/
theorem exists_first_material {F : Type} (l : List (OBJECT_MATERIAL F)) (tag : String)
    (h : ∃ (i : Nat) (e : OBJECT_MATERIAL F), l[i]? = some e ∧ e.tag = tag) :
    ∃ (i : Nat) (e : OBJECT_MATERIAL F), l[i]? = some e ∧ e.tag = tag ∧
      ∀ (j : Nat) (e' : OBJECT_MATERIAL F), j < i → l[j]? = some e' → e'.tag ≠ tag := by
  classical
  have hex : ∃ (i : Nat), ∃ (e : OBJECT_MATERIAL F), l[i]? = some e ∧ e.tag = tag := h
  obtain ⟨e, he, ht⟩ := Nat.find_spec hex
  refine ⟨Nat.find hex, e, he, ht, ?_⟩
  intro j e' hj he' ht'
  exact Nat.find_min hex hj ⟨e', he', ht'⟩

/-- What `FindMaterial` gives when the first catalog entry carrying the tag is `e`. -/
theorem FindMaterial_first_entry {F : Type} (this : SceneManager F) (tag : String)
    (material : OBJECT_MATERIAL F) (i : Nat) (e : OBJECT_MATERIAL F)
    (he : this.m_objectMaterials[i]? = some e) (ht : e.tag = tag)
    (hfirst : ∀ j e', j < i → this.m_objectMaterials[j]? = some e' → e'.tag ≠ tag) :
    this.FindMaterial tag material = (true, material.assignFrom e) := by
  have hne : ¬ this.m_objectMaterials.length = 0 := by
    intro h0
    rw [List.getElem?_eq_none (by omega)] at he
    cases he
  unfold SceneManager.FindMaterial
  rw [if_neg hne, FindMaterial_loop_hit _ tag material i e he ht i 0 (by omega) (by omega)
    (fun j e' _ hji he' => hfirst j e' hji he')]

/-- What `FindMaterial` gives on a non-empty catalog none of whose entries carries the
tag: `true`, with the output parameter as it was passed in. -/
theorem FindMaterial_no_entry {F : Type} (this : SceneManager F) (tag : String)
    (material : OBJECT_MATERIAL F) (hne : this.m_objectMaterials ≠ [])
    (hno : ∀ (i : Nat) (e : OBJECT_MATERIAL F), this.m_objectMaterials[i]? = some e → e.tag ≠ tag) :
    this.FindMaterial tag material = (true, material) := by
  have hlen : ¬ this.m_objectMaterials.length = 0 := by
    intro h0
    exact hne (List.length_eq_zero.mp h0)
  unfold SceneManager.FindMaterial
  rw [if_neg hlen, FindMaterial_loop_miss _ tag material _ 0 rfl
    (fun j e _ he => hno j e he)]

/-- On an empty catalog `FindMaterial` returns `false` and leaves the output alone. -/
theorem FindMaterial_empty {F : Type} (this : SceneManager F) (tag : String)
    (material : OBJECT_MATERIAL F) (hempty : this.m_objectMaterials = []) :
    this.FindMaterial tag material = (false, material) := by
  simp [SceneManager.FindMaterial, hempty]

/-- C5, the code at a failing input: on the catalog of `DefineObjectMaterials`, none
of whose nine entries carries the tag "gold", `FindMaterial("gold", material)` returns
`true` and leaves `material` as it was passed in. -/
theorem FindMaterial_unknown_tag_returns_true :
    sceneWithMaterials.m_objectMaterials.length = 9 ∧
    (∀ e ∈ sceneWithMaterials.m_objectMaterials, e.tag ≠ "gold") ∧
    sceneWithMaterials.FindMaterial "gold" materialZero = (true, materialZero) := by
  have hno : ∀ e ∈ sceneWithMaterials.m_objectMaterials, e.tag ≠ "gold" := by decide
  refine ⟨rfl, hno, ?_⟩
  exact FindMaterial_no_entry sceneWithMaterials "gold" materialZero (by decide)
    (fun i e he => hno e (List.getElem?_mem he))

/-- C6: for every catalog and every tag carried by at least one entry, `FindMaterial`
returns `true` and the output has the `ambientColor`, `ambientStrength`,
`diffuseColor`, `specularColor` and `shininess` of the first entry carrying the tag,
whatever the entries before and after it are; the output's own `tag` is kept. -/
theorem FindMaterial_first_match {F : Type} (this : SceneManager F) (tag : String)
    (material : OBJECT_MATERIAL F) (h : ∃ e ∈ this.m_objectMaterials, e.tag = tag) :
    ∃ (i : Nat) (e : OBJECT_MATERIAL F),
      this.m_objectMaterials[i]? = some e ∧ e.tag = tag ∧
      (∀ (j : Nat) (e' : OBJECT_MATERIAL F), j < i →
        this.m_objectMaterials[j]? = some e' → e'.tag ≠ tag) ∧
      (this.FindMaterial tag material).1 = true ∧
      (this.FindMaterial tag material).2.ambientColor = e.ambientColor ∧
      (this.FindMaterial tag material).2.ambientStrength = e.ambientStrength ∧
      (this.FindMaterial tag material).2.diffuseColor = e.diffuseColor ∧
      (this.FindMaterial tag material).2.specularColor = e.specularColor ∧
      (this.FindMaterial tag material).2.shininess = e.shininess ∧
      (this.FindMaterial tag material).2.tag = material.tag := by
  obtain ⟨e0, hmem, ht0⟩ := h
  obtain ⟨n, hn⟩ := List.getElem?_of_mem hmem
  obtain ⟨i, e, he, ht, hfirst⟩ := exists_first_material _ tag ⟨n, e0, hn, ht0⟩
  have hres := FindMaterial_first_entry this tag material i e he ht hfirst
  refine ⟨i, e, he, ht, hfirst, ?_⟩
  rw [hres]
  exact ⟨rfl, rfl, rfl, rfl, rfl, rfl, rfl⟩

/-- C6 at the catalog of `DefineObjectMaterials`: looking up "wood", defined third
after "steel" and "ceramic", yields the wood values. -/
theorem FindMaterial_first_match_witness :
    (∃ e ∈ sceneWithMaterials.m_objectMaterials, e.tag = "wood") ∧
    (sceneWithMaterials.FindMaterial "wood" materialZero).1 = true ∧
    (sceneWithMaterials.FindMaterial "wood" materialZero).2.ambientColor = ⟨0.4, 0.3, 0.1⟩ ∧
    (sceneWithMaterials.FindMaterial "wood" materialZero).2.ambientStrength = 0.2 ∧
    (sceneWithMaterials.FindMaterial "wood" materialZero).2.diffuseColor = ⟨0.3, 0.2, 0.1⟩ ∧
    (sceneWithMaterials.FindMaterial "wood" materialZero).2.specularColor = ⟨0.1, 0.1, 0.1⟩ ∧
    (sceneWithMaterials.FindMaterial "wood" materialZero).2.shininess = 0.3 := by
  have hmem : ∃ e ∈ sceneWithMaterials.m_objectMaterials, e.tag = "wood" := by decide
  obtain ⟨i, e, he, ht, -, h1, h2, h3, h4, h5, h6, -⟩ :=
    FindMaterial_first_match sceneWithMaterials "wood" materialZero hmem
  have hi : i < 9 := by
    rcases Nat.lt_or_ge i 9 with h | h
    · exact h
    · rw [List.getElem?_eq_none (by simpa [sceneWithMaterials,
        SceneManager.DefineObjectMaterials] using h)] at he
      cases he
  have hie : e = ⟨⟨0.4, 0.3, 0.1⟩, 0.2, ⟨0.3, 0.2, 0.1⟩, ⟨0.1, 0.1, 0.1⟩, 0.3, "wood"⟩ := by
    simp only [sceneWithMaterials, SceneManager.DefineObjectMaterials] at he
    interval_cases i <;> simp at he <;> subst he <;> simp at ht ⊢
  subst hie
  exact ⟨hmem, h1, h2, h3, h4, h5, h6⟩

/-! ## Shader state dispatch: uniforms after a call -/

theorem setUniform_same {F : Type} (sm : ShaderManager F) (name : String)
    (v : UniformValue F) : (sm.setUniform name v).uniforms name = some v := by
  simp [ShaderManager.setUniform]

theorem setUniform_other {F : Type} (sm : ShaderManager F) (name k : String)
    (v : UniformValue F) (hk : k ≠ name) :
    (sm.setUniform name v).uniforms k = sm.uniforms k := by
  simp [ShaderManager.setUniform, hk]

/-- On a non-empty catalog with a shader manager attached, `SetShaderMaterial` sets
the five material uniforms from what `FindMaterial` left in the local `material`,
whether or not an entry carries the tag. -/
theorem SetShaderMaterial_nonempty {F : Type} (this : SceneManager F) (materialTag : String)
    (material : OBJECT_MATERIAL F) (sm : ShaderManager F)
    (hsm : this.m_pShaderManager = some sm) (hne : this.m_objectMaterials ≠ []) :
    ∃ sm', this.SetShaderMaterial materialTag material =
        some { this with m_pShaderManager := some sm' } ∧
      sm'.uniforms "material.ambientColor" =
        some (.vec3 (this.FindMaterial materialTag material).2.ambientColor) ∧
      sm'.uniforms "material.ambientStrength" =
        some (.float (this.FindMaterial materialTag material).2.ambientStrength) ∧
      sm'.uniforms "material.diffuseColor" =
        some (.vec3 (this.FindMaterial materialTag material).2.diffuseColor) ∧
      sm'.uniforms "material.specularColor" =
        some (.vec3 (this.FindMaterial materialTag material).2.specularColor) ∧
      sm'.uniforms "material.shininess" =
        some (.float (this.FindMaterial materialTag material).2.shininess) := by
  have hlen : this.m_objectMaterials.length > 0 := by
    cases hl : this.m_objectMaterials with
    | nil => exact absurd hl hne
    | cons a l => simp
  have htrue : (this.FindMaterial materialTag material).1 = true := by
    unfold SceneManager.FindMaterial
    rw [if_neg (by omega)]
  unfold SceneManager.SetShaderMaterial
  simp only [hlen, if_true, htrue, hsm]
  refine ⟨_, rfl, ?_, ?_, ?_, ?_, ?_⟩ <;>
    simp [ShaderManager.setVec3Value, ShaderManager.setFloatValue, ShaderManager.setUniform]

/-- On an empty catalog `SetShaderMaterial` does nothing. -/
theorem SetShaderMaterial_empty {F : Type} (this : SceneManager F) (materialTag : String)
    (material : OBJECT_MATERIAL F) (hempty : this.m_objectMaterials = []) :
    this.SetShaderMaterial materialTag material = some this := by
  simp [SceneManager.SetShaderMaterial, hempty]

/-- C7, the code at a failing input: after `SetShaderMaterial("steel")` has set the
material uniforms (shininess 128), `SetShaderMaterial("gold")`, a tag that none of
the nine catalog entries carries, sets them again, from the contents of its local
`material` (here all zero): the shininess uniform becomes 0. -/
theorem SetShaderMaterial_unknown_tag_overwrites :
    (∀ e ∈ sceneWithMaterials.m_objectMaterials, e.tag ≠ "gold") ∧
    ∃ s1 sm1 s2 sm2,
      sceneWithMaterials.SetShaderMaterial "steel" materialZero = some s1 ∧
      s1.m_pShaderManager = some sm1 ∧
      sm1.uniforms "material.shininess" = some (.float 128.0) ∧
      s1.SetShaderMaterial "gold" materialZero = some s2 ∧
      s2.m_pShaderManager = some sm2 ∧
      sm2.uniforms "material.shininess" = some (.float 0.0) ∧
      sm2.uniforms "material.shininess" ≠ sm1.uniforms "material.shininess" := by
  have hno : ∀ e ∈ sceneWithMaterials.m_objectMaterials, e.tag ≠ "gold" := by decide
  have hne : sceneWithMaterials.m_objectMaterials ≠ [] := by decide
  refine ⟨hno, ?_⟩
  obtain ⟨sm1, hs1, -, -, -, -, hshine1⟩ :=
    SetShaderMaterial_nonempty sceneWithMaterials "steel" materialZero ⟨fun _ => none⟩ rfl hne
  have hsteel : sceneWithMaterials.FindMaterial "steel" materialZero =
      (true, materialZero.assignFrom
        ⟨⟨0.1, 0.1, 0.1⟩, 0.2, ⟨0.2, 0.2, 0.2⟩, ⟨0.6, 0.6, 0.6⟩, 128.0, "steel"⟩) :=
    FindMaterial_first_entry sceneWithMaterials "steel" materialZero 0 _ rfl rfl
      (fun j e' hj _ => absurd hj (Nat.not_lt_zero j))
  rw [hsteel] at hshine1
  obtain ⟨sm2, hs2, -, -, -, -, hshine2⟩ :=
    SetShaderMaterial_nonempty
      ({ sceneWithMaterials with m_pShaderManager := some sm1 } : SceneManager ℚ)
      "gold" materialZero sm1 rfl hne
  have hgold : SceneManager.FindMaterial
      ({ sceneWithMaterials with m_pShaderManager := some sm1 } : SceneManager ℚ)
      "gold" materialZero = (true, materialZero) :=
    FindMaterial_no_entry _ "gold" materialZero hne
      (fun i e he => hno e (List.getElem?_mem he))
  rw [hgold] at hshine2
  refine ⟨_, sm1, _, sm2, hs1, rfl, hshine1, hs2, rfl, hshine2, ?_⟩
  rw [hshine1, hshine2]
  intro h
  have h0 : (0.0 : ℚ) = 128.0 := by
    simpa [materialZero, OBJECT_MATERIAL.assignFrom] using h
  norm_num at h0

/-- With a shader manager attached, `SetShaderTexture` sets `bUseTexture` to 1 and
`objectTexture` to whatever `FindTextureSlot` returned. -/
theorem SetShaderTexture_of_slot {F : Type} (this : SceneManager F) (sm : ShaderManager F)
    (textureTag : String) (slot : Int) (hsm : this.m_pShaderManager = some sm)
    (hslot : this.FindTextureSlot textureTag = some slot) :
    ∃ sm', this.SetShaderTexture textureTag =
        some { this with m_pShaderManager := some sm' } ∧
      sm'.uniforms "bUseTexture" = some (.int 1) ∧
      sm'.uniforms "objectTexture" = some (.int slot) := by
  unfold SceneManager.SetShaderTexture
  simp only [hsm, hslot]
  refine ⟨_, rfl, ?_, ?_⟩ <;>
    simp [ShaderManager.setIntValue, ShaderManager.setSampler2DValue, ShaderManager.setUniform,
      g_UseTextureName, g_TextureValueName, intOfBool]

/-- C8: for every registry (count of loaded textures within the array) with a shader
manager attached and every tag, `SetShaderTexture(tag)` sets `bUseTexture` to true
(the integer 1) and the `objectTexture` sampler to `FindTextureSlot(tag)`: the first
slot carrying the tag when one does, and -1 when none does. -/
theorem SetShaderTexture_effect {F : Type} (this : SceneManager F) (sm : ShaderManager F)
    (tag : String) (hsm : this.m_pShaderManager = some sm)
    (hwf : this.m_loadedTextures ≤ this.m_textureIDs.length) :
    ∃ slot this' sm', this.FindTextureSlot tag = some slot ∧
      this.SetShaderTexture tag = some this' ∧
      this'.m_pShaderManager = some sm' ∧
      sm'.uniforms "bUseTexture" = some (.int 1) ∧
      sm'.uniforms "objectTexture" = some (.int slot) ∧
      ((∃ i e, i < this.m_loadedTextures ∧ this.m_textureIDs[i]? = some e ∧ e.tag = tag) →
        ∃ i e, i < this.m_loadedTextures ∧ this.m_textureIDs[i]? = some e ∧ e.tag = tag ∧
          (∀ j e', j < i → this.m_textureIDs[j]? = some e' → e'.tag ≠ tag) ∧
          slot = (i : Int)) ∧
      ((∀ i e, i < this.m_loadedTextures → this.m_textureIDs[i]? = some e → e.tag ≠ tag) →
        slot = -1) := by
  by_cases hreg : ∃ i e, i < this.m_loadedTextures ∧ this.m_textureIDs[i]? = some e ∧ e.tag = tag
  · obtain ⟨i, e, hi, he, ht, hfirst⟩ := exists_first_slot _ _ tag hreg
    have hslot := (FindTexture_first_slot this tag i e hi he ht hfirst).1
    obtain ⟨sm', hcall, huse, hobj⟩ := SetShaderTexture_of_slot this sm tag _ hsm hslot
    refine ⟨(i : Int), _, sm', hslot, hcall, rfl, huse, hobj, ?_, ?_⟩
    · intro _
      exact ⟨i, e, hi, he, ht, hfirst, rfl⟩
    · intro hno
      exact absurd ht (hno i e hi he)
  · have hno : ∀ i e, i < this.m_loadedTextures → this.m_textureIDs[i]? = some e →
        e.tag ≠ tag := fun i e hi he ht => hreg ⟨i, e, hi, he, ht⟩
    have hslot := (FindTexture_no_slot this tag hwf hno).1
    obtain ⟨sm', hcall, huse, hobj⟩ := SetShaderTexture_of_slot this sm tag _ hsm hslot
    refine ⟨-1, _, sm', hslot, hcall, rfl, huse, hobj, ?_, ?_⟩
    · intro h
      exact absurd h hreg
    · intro _
      rfl

/-- C8 at a concrete scene: "Metal_S", loaded second, has the sampler set to 1. -/
theorem SetShaderTexture_effect_witness :
    sceneWithMaterials.m_loadedTextures ≤ sceneWithMaterials.m_textureIDs.length ∧
    ∃ this' sm', sceneWithMaterials.SetShaderTexture "Metal_S" = some this' ∧
      this'.m_pShaderManager = some sm' ∧
      sm'.uniforms "bUseTexture" = some (.int 1) ∧
      sm'.uniforms "objectTexture" = some (.int 1) := by
  have hwf : sceneWithMaterials.m_loadedTextures ≤ sceneWithMaterials.m_textureIDs.length := by
    decide
  obtain ⟨slot, this', sm', -, hcall, hsm', huse, hobj, hfound, -⟩ :=
    SetShaderTexture_effect sceneWithMaterials ⟨fun _ => none⟩ "Metal_S" rfl hwf
  obtain ⟨i, e, hi, he, ht, -, hslot⟩ := hfound ⟨1, ⟨"Metal_S", 9⟩, by decide, rfl, rfl⟩
  have hi1 : i = 1 := by
    simp only [sceneWithMaterials, SceneManager.DefineObjectMaterials] at hi he
    interval_cases i <;> simp at he <;> subst he <;> simp at ht ⊢
  subst hi1
  subst hslot
  exact ⟨hwf, this', sm', hcall, hsm', huse, hobj⟩

/-- C9: for every scene manager with a shader manager attached, in any state, and
every (r, g, b, a), after `SetShaderColor` the `bUseTexture` uniform is false (the
integer 0), `objectColor` is (r, g, b, a), every other uniform is as it was, and so
are the texture registry and the material catalog. -/
theorem SetShaderColor_effect {F : Type} (this : SceneManager F) (sm : ShaderManager F)
    (r g b a : F) (hsm : this.m_pShaderManager = some sm) :
    ∃ sm', (this.SetShaderColor r g b a).m_pShaderManager = some sm' ∧
      sm'.uniforms "bUseTexture" = some (.int 0) ∧
      sm'.uniforms "objectColor" = some (.vec4 ⟨r, g, b, a⟩) ∧
      (∀ name, name ≠ "bUseTexture" → name ≠ "objectColor" →
        sm'.uniforms name = sm.uniforms name) ∧
      (this.SetShaderColor r g b a).m_loadedTextures = this.m_loadedTextures ∧
      (this.SetShaderColor r g b a).m_textureIDs = this.m_textureIDs ∧
      (this.SetShaderColor r g b a).m_objectMaterials = this.m_objectMaterials := by
  unfold SceneManager.SetShaderColor
  simp only [hsm]
  refine ⟨_, rfl, ?_, ?_, ?_, ?_, ?_, ?_⟩
  · simp [ShaderManager.setIntValue, ShaderManager.setVec4Value, ShaderManager.setUniform,
      g_UseTextureName, g_ColorValueName, intOfBool]
  · simp [ShaderManager.setIntValue, ShaderManager.setVec4Value, ShaderManager.setUniform,
      g_UseTextureName, g_ColorValueName, intOfBool]
  · intro name h1 h2
    simp [ShaderManager.setIntValue, ShaderManager.setVec4Value, ShaderManager.setUniform,
      g_UseTextureName, g_ColorValueName, h1, h2]
  all_goals trivial

/-- C9 at a concrete state: with texturing on beforehand, setting the color orange
turns it off, sets `objectColor`, and leaves the sampler uniform at 1. -/
theorem SetShaderColor_effect_witness :
    shaderTextured.uniforms "bUseTexture" = some (.int 1) ∧
    ∃ sm', (SceneManager.SetShaderColor
        ({ sceneWithMaterials with m_pShaderManager := some shaderTextured } : SceneManager ℚ)
        1.000 0.647 0.000 1).m_pShaderManager = some sm' ∧
      sm'.uniforms "bUseTexture" = some (.int 0) ∧
      sm'.uniforms "objectColor" = some (.vec4 ⟨1.000, 0.647, 0.000, 1⟩) ∧
      sm'.uniforms "objectTexture" = some (.int 1) := by
  obtain ⟨sm', hsm', huse, hcol, hother, -⟩ :=
    SetShaderColor_effect
      ({ sceneWithMaterials with m_pShaderManager := some shaderTextured } : SceneManager ℚ)
      shaderTextured 1.000 0.647 0.000 1 rfl
  have hobj := hother "objectTexture" (by decide) (by decide)
  exact ⟨rfl, sm', hsm', huse, hcol, hobj.trans rfl⟩

/-! ## The texture registry: binding -/

/-- The `for` loop of `BindGLTextures` entered at `i`: it completes; units below `i`
and units from the count on are as they were, and every unit from `i` up to the count
holds the ID stored in the slot of the same index. -/
theorem BindGLTextures_loop_units {F : Type} (this : SceneManager F)
    (hwf : this.m_loadedTextures ≤ this.m_textureIDs.length) :
    ∀ (k i : Nat) (gl : GLState), this.m_loadedTextures - i = k →
      ∃ gl', BindGLTextures.loop this i gl = some gl' ∧
        (∀ u, i ≤ u → u < this.m_loadedTextures →
          ∃ e, this.m_textureIDs[u]? = some e ∧ gl'.boundTexture2D u = e.ID) ∧
        (∀ u, u < i ∨ this.m_loadedTextures ≤ u →
          gl'.boundTexture2D u = gl.boundTexture2D u) := by
  intro k
  induction k with
  | zero =>
    intro i gl hk
    have hge : ¬ i < this.m_loadedTextures := by omega
    rw [BindGLTextures.loop]
    simp only [hge, dite_false]
    exact ⟨gl, rfl, fun u h1 h2 => absurd h2 (by omega), fun _ _ => rfl⟩
  | succ k ih =>
    intro i gl hk
    have hlt : i < this.m_loadedTextures := by omega
    have hlen : i < this.m_textureIDs.length := by omega
    have hget : this.m_textureIDs[i]? = some this.m_textureIDs[i] :=
      List.getElem?_eq_getElem hlen
    rw [BindGLTextures.loop]
    simp only [hlt, dite_true, hget]
    obtain ⟨gl', hrun, hset, hkeep⟩ :=
      ih (i + 1) (glBindTexture (glActiveTexture gl i) this.m_textureIDs[i].ID) (by omega)
    refine ⟨gl', hrun, ?_, ?_⟩
    · intro u hiu hun
      rcases Nat.eq_or_lt_of_le hiu with heq | hlt'
      · subst heq
        refine ⟨this.m_textureIDs[i], hget, ?_⟩
        rw [hkeep i (Or.inl (by omega))]
        simp [glBindTexture, glActiveTexture]
      · exact hset u (by omega) hun
    · intro u hu
      rw [hkeep u (by omega)]
      have hne : u ≠ i := by omega
      simp [glBindTexture, glActiveTexture, hne]

/-- C10: for every registry with n loaded textures (n within the array),
`BindGLTextures` completes, and afterwards texture unit i holds the ID stored in slot
i for every i below n, while the units n and above hold what they held before. -/
theorem BindGLTextures_units {F : Type} (this : SceneManager F) (gl : GLState)
    (hwf : this.m_loadedTextures ≤ this.m_textureIDs.length) :
    ∃ gl', this.BindGLTextures gl = some gl' ∧
      (∀ i, i < this.m_loadedTextures →
        ∃ e, this.m_textureIDs[i]? = some e ∧ gl'.boundTexture2D i = e.ID) ∧
      (∀ u, this.m_loadedTextures ≤ u → gl'.boundTexture2D u = gl.boundTexture2D u) := by
  obtain ⟨gl', hrun, hset, hkeep⟩ := BindGLTextures_loop_units this hwf _ 0 gl rfl
  exact ⟨gl', hrun, fun i hi => hset i (Nat.zero_le i) hi, fun u hu => hkeep u (Or.inr hu)⟩

/-- C10 at a concrete registry: with "Table" (ID 7) and "Metal_S" (ID 9) loaded in
that order, unit 0 holds 7 and unit 1 holds 9 after binding, and unit 2 still holds 0. -/
theorem BindGLTextures_units_witness :
    registryTableMetal.m_loadedTextures ≤ registryTableMetal.m_textureIDs.length ∧
    ∃ gl', registryTableMetal.BindGLTextures contextTwoNames = some gl' ∧
      gl'.boundTexture2D 0 = 7 ∧ gl'.boundTexture2D 1 = 9 ∧ gl'.boundTexture2D 2 = 0 := by
  have hwf : registryTableMetal.m_loadedTextures ≤ registryTableMetal.m_textureIDs.length := by
    decide
  obtain ⟨gl', hrun, hset, hkeep⟩ := BindGLTextures_units registryTableMetal contextTwoNames hwf
  obtain ⟨e0, he0, h0⟩ := hset 0 (by decide)
  obtain ⟨e1, he1, h1⟩ := hset 1 (by decide)
  have h2 := hkeep 2 (by decide)
  simp only [registryTableMetal] at he0 he1
  simp at he0 he1
  subst he0
  subst he1
  exact ⟨hwf, gl', hrun, h0, h1, h2⟩

/-! ## Transformations: the model matrix -/

theorem vec4_zero {α : Type} (a b c d : α) : vec4 a b c d 0 = a := rfl

theorem vec4_one {α : Type} (a b c d : α) : vec4 a b c d 1 = b := rfl

theorem vec4_two {α : Type} (a b c d : α) : vec4 a b c d 2 = c := rfl

theorem vec4_three {α : Type} (a b c d : α) : vec4 a b c d 3 = d := rfl

/-- Two quadruples are equal when their four components are. -/
theorem vec4_ext {α : Type} (v w : Fin 4 → α) (h0 : v 0 = w 0) (h1 : v 1 = w 1)
    (h2 : v 2 = w 2) (h3 : v 3 = w 3) : v = w := by
  funext i
  fin_cases i
  · exact h0
  · exact h1
  · exact h2
  · exact h3

theorem Mat4.apply_mul {F : Type} [Field F] (a b : Mat4 F) (v : Fin 4 → F) :
    Mat4.apply (Mat4.mul a b) v = Mat4.apply a (Mat4.apply b v) := by
  funext i
  simp only [Mat4.apply, Mat4.mul]
  ring

theorem glm_normalize_axisX {F : Type} [Field F] (m : GLMath F) (hsqrt : m.sqrt 1 = 1) :
    glm_normalize m ⟨1, 0, 0⟩ = ⟨1, 0, 0⟩ := by
  simp [glm_normalize, hsqrt]

theorem glm_normalize_axisY {F : Type} [Field F] (m : GLMath F) (hsqrt : m.sqrt 1 = 1) :
    glm_normalize m ⟨0, 1, 0⟩ = ⟨0, 1, 0⟩ := by
  simp [glm_normalize, hsqrt]

theorem glm_normalize_axisZ {F : Type} [Field F] (m : GLMath F) (hsqrt : m.sqrt 1 = 1) :
    glm_normalize m ⟨0, 0, 1⟩ = ⟨0, 0, 1⟩ := by
  simp [glm_normalize, hsqrt]

theorem glm_scale_apply {F : Type} [Field F] (s p : Vec3 F) :
    Mat4.apply (glm_scale s) p.toPoint = (scalePoint s p).toPoint := by
  apply vec4_ext <;>
    simp [Mat4.apply, glm_scale, Vec3.toPoint, scalePoint, vec4_zero, vec4_one, vec4_two,
      vec4_three]

theorem glm_translate_apply {F : Type} [Field F] (t p : Vec3 F) :
    Mat4.apply (glm_translate t) p.toPoint = (translatePoint t p).toPoint := by
  apply vec4_ext <;>
    simp [Mat4.apply, glm_translate, Vec3.toPoint, translatePoint, vec4_zero, vec4_one,
      vec4_two, vec4_three]

theorem glm_rotate_X_apply {F : Type} [Field F] (m : GLMath F) (hsqrt : m.sqrt 1 = 1)
    (angle : F) (p : Vec3 F) :
    Mat4.apply (glm_rotate m angle ⟨1, 0, 0⟩) p.toPoint = (rotateAboutX m angle p).toPoint := by
  apply vec4_ext <;>
    simp [Mat4.apply, glm_rotate, glm_normalize_axisX m hsqrt, Vec3.toPoint, rotateAboutX,
      vec4_zero, vec4_one, vec4_two, vec4_three]
  all_goals ring

theorem glm_rotate_Y_apply {F : Type} [Field F] (m : GLMath F) (hsqrt : m.sqrt 1 = 1)
    (angle : F) (p : Vec3 F) :
    Mat4.apply (glm_rotate m angle ⟨0, 1, 0⟩) p.toPoint = (rotateAboutY m angle p).toPoint := by
  apply vec4_ext <;>
    simp [Mat4.apply, glm_rotate, glm_normalize_axisY m hsqrt, Vec3.toPoint, rotateAboutY,
      vec4_zero, vec4_one, vec4_two, vec4_three]
  all_goals ring

theorem glm_rotate_Z_apply {F : Type} [Field F] (m : GLMath F) (hsqrt : m.sqrt 1 = 1)
    (angle : F) (p : Vec3 F) :
    Mat4.apply (glm_rotate m angle ⟨0, 0, 1⟩) p.toPoint = (rotateAboutZ m angle p).toPoint := by
  apply vec4_ext <;>
    simp [Mat4.apply, glm_rotate, glm_normalize_axisZ m hsqrt, Vec3.toPoint, rotateAboutZ,
      vec4_zero, vec4_one, vec4_two, vec4_three]
  all_goals ring

/-- The model matrix applied to a point: scale, then rotate about Z, then about Y,
then about X, then translate. -/
theorem modelView_apply {F : Type} [Field F] (m : GLMath F) (hsqrt : m.sqrt 1 = 1)
    (scaleXYZ : Vec3 F) (X Y Z : F) (positionXYZ p : Vec3 F) :
    Mat4.apply (SetTransformations.modelView m scaleXYZ X Y Z positionXYZ) p.toPoint =
      (translatePoint positionXYZ
        (rotateAboutX m (glm_radians m X)
          (rotateAboutY m (glm_radians m Y)
            (rotateAboutZ m (glm_radians m Z) (scalePoint scaleXYZ p))))).toPoint := by
  simp only [SetTransformations.modelView, Mat4.apply_mul, glm_scale_apply,
    glm_rotate_Z_apply m hsqrt, glm_rotate_Y_apply m hsqrt, glm_rotate_X_apply m hsqrt,
    glm_translate_apply]

theorem glm_radians_zero {F : Type} [Field F] (m : GLMath F) : glm_radians m 0 = 0 := by
  simp [glm_radians]

theorem glm_radians_ninety :
    glm_radians (⟨Real.cos, Real.sin, Real.sqrt, Real.pi⟩ : GLMath ℝ) 90 = Real.pi / 2 := by
  simp only [glm_radians]
  ring

/-- C11 as stated fails: with unit scale, rotations (X=90, Y=90, Z=0) degrees and zero
position, the model matrix sends the point (0,1,0) to (0,0,1), while scaling, then
rotating about X, then about Y, then about Z, then translating sends it to (1,0,0). -/
theorem modelView_not_X_then_Y_then_Z :
    Mat4.apply (SetTransformations.modelView (⟨Real.cos, Real.sin, Real.sqrt, Real.pi⟩ : GLMath ℝ)
        ⟨1, 1, 1⟩ 90 90 0 ⟨0, 0, 0⟩) (Vec3.toPoint ⟨0, 1, 0⟩) = vec4 0 0 1 1 ∧
    (translatePoint ⟨0, 0, 0⟩
      (rotateAboutZ (⟨Real.cos, Real.sin, Real.sqrt, Real.pi⟩ : GLMath ℝ)
        (glm_radians ⟨Real.cos, Real.sin, Real.sqrt, Real.pi⟩ 0)
        (rotateAboutY ⟨Real.cos, Real.sin, Real.sqrt, Real.pi⟩
          (glm_radians ⟨Real.cos, Real.sin, Real.sqrt, Real.pi⟩ 90)
          (rotateAboutX ⟨Real.cos, Real.sin, Real.sqrt, Real.pi⟩
            (glm_radians ⟨Real.cos, Real.sin, Real.sqrt, Real.pi⟩ 90)
            (scalePoint ⟨1, 1, 1⟩ ⟨0, 1, 0⟩))))).toPoint = vec4 1 0 0 1 ∧
    Mat4.apply (SetTransformations.modelView (⟨Real.cos, Real.sin, Real.sqrt, Real.pi⟩ : GLMath ℝ)
        ⟨1, 1, 1⟩ 90 90 0 ⟨0, 0, 0⟩) (Vec3.toPoint ⟨0, 1, 0⟩) ≠
    (translatePoint ⟨0, 0, 0⟩
      (rotateAboutZ (⟨Real.cos, Real.sin, Real.sqrt, Real.pi⟩ : GLMath ℝ)
        (glm_radians ⟨Real.cos, Real.sin, Real.sqrt, Real.pi⟩ 0)
        (rotateAboutY ⟨Real.cos, Real.sin, Real.sqrt, Real.pi⟩
          (glm_radians ⟨Real.cos, Real.sin, Real.sqrt, Real.pi⟩ 90)
          (rotateAboutX ⟨Real.cos, Real.sin, Real.sqrt, Real.pi⟩
            (glm_radians ⟨Real.cos, Real.sin, Real.sqrt, Real.pi⟩ 90)
            (scalePoint ⟨1, 1, 1⟩ ⟨0, 1, 0⟩))))).toPoint := by
  have hcode : Mat4.apply (SetTransformations.modelView
      (⟨Real.cos, Real.sin, Real.sqrt, Real.pi⟩ : GLMath ℝ) ⟨1, 1, 1⟩ 90 90 0 ⟨0, 0, 0⟩)
      (Vec3.toPoint ⟨0, 1, 0⟩) = vec4 0 0 1 1 := by
    rw [modelView_apply _ Real.sqrt_one, glm_radians_ninety, glm_radians_zero]
    apply vec4_ext <;>
      simp [Vec3.toPoint, translatePoint, rotateAboutX, rotateAboutY, rotateAboutZ, scalePoint,
        vec4_zero, vec4_one, vec4_two, vec4_three]
  have hspec : (translatePoint ⟨0, 0, 0⟩
      (rotateAboutZ (⟨Real.cos, Real.sin, Real.sqrt, Real.pi⟩ : GLMath ℝ)
        (glm_radians ⟨Real.cos, Real.sin, Real.sqrt, Real.pi⟩ 0)
        (rotateAboutY ⟨Real.cos, Real.sin, Real.sqrt, Real.pi⟩
          (glm_radians ⟨Real.cos, Real.sin, Real.sqrt, Real.pi⟩ 90)
          (rotateAboutX ⟨Real.cos, Real.sin, Real.sqrt, Real.pi⟩
            (glm_radians ⟨Real.cos, Real.sin, Real.sqrt, Real.pi⟩ 90)
            (scalePoint ⟨1, 1, 1⟩ ⟨0, 1, 0⟩))))).toPoint = vec4 1 0 0 1 := by
    rw [glm_radians_ninety, glm_radians_zero]
    apply vec4_ext <;>
      simp [Vec3.toPoint, translatePoint, rotateAboutX, rotateAboutY, rotateAboutZ, scalePoint,
        vec4_zero, vec4_one, vec4_two, vec4_three]
  refine ⟨hcode, hspec, ?_⟩
  rw [hcode, hspec]
  intro h
  have h0 := congrFun h 0
  simp [vec4_zero] at h0

/-- C11, amended: for every scale, rotation angles in degrees, position and point p,
the model matrix of `SetTransformations` applied to p as a column vector gives the
result of scaling p first, then rotating it about Z, then about Y, then about X, then
translating it by the position (over the reals). -/
theorem modelView_scale_Z_Y_X_translate (scaleXYZ : Vec3 ℝ) (X Y Z : ℝ)
    (positionXYZ p : Vec3 ℝ) :
    Mat4.apply (SetTransformations.modelView (⟨Real.cos, Real.sin, Real.sqrt, Real.pi⟩ : GLMath ℝ)
        scaleXYZ X Y Z positionXYZ) p.toPoint =
      (translatePoint positionXYZ
        (rotateAboutX (⟨Real.cos, Real.sin, Real.sqrt, Real.pi⟩ : GLMath ℝ)
          (glm_radians ⟨Real.cos, Real.sin, Real.sqrt, Real.pi⟩ X)
          (rotateAboutY ⟨Real.cos, Real.sin, Real.sqrt, Real.pi⟩
            (glm_radians ⟨Real.cos, Real.sin, Real.sqrt, Real.pi⟩ Y)
            (rotateAboutZ ⟨Real.cos, Real.sin, Real.sqrt, Real.pi⟩
              (glm_radians ⟨Real.cos, Real.sin, Real.sqrt, Real.pi⟩ Z)
              (scalePoint scaleXYZ p))))).toPoint :=
  modelView_apply _ Real.sqrt_one scaleXYZ X Y Z positionXYZ p

/-- Two matrices are equal when their sixteen entries are. -/
theorem mat4_ext {F : Type} (a b : Mat4 F)
    (h : ∀ i j, a i j = b i j) : a = b := by
  funext i j
  exact h i j

theorem glm_scale_one {F : Type} [Field F] : glm_scale (⟨1, 1, 1⟩ : Vec3 F) = Mat4.identity := by
  apply mat4_ext
  intro i j
  fin_cases i <;> fin_cases j <;> rfl

theorem glm_translate_zero {F : Type} [Field F] :
    glm_translate (⟨0, 0, 0⟩ : Vec3 F) = Mat4.identity := by
  apply mat4_ext
  intro i j
  fin_cases i <;> fin_cases j <;> rfl

theorem Mat4.mul_identity {F : Type} [Field F] (a : Mat4 F) :
    Mat4.mul a Mat4.identity = a := by
  apply mat4_ext
  intro i j
  fin_cases j <;>
    simp [Mat4.mul, Mat4.identity, vec4_zero, vec4_one, vec4_two, vec4_three]

/-- A rotation by zero radians about a coordinate axis is the identity matrix. -/
theorem glm_rotate_zero {F : Type} [Field F] (m : GLMath F) (hcos : m.cos 0 = 1)
    (hsin : m.sin 0 = 0) (v : Vec3 F) : glm_rotate m 0 v = Mat4.identity := by
  apply mat4_ext
  intro i j
  fin_cases i <;> fin_cases j <;>
    simp [glm_rotate, Mat4.identity, hcos, hsin, vec4_zero, vec4_one, vec4_two, vec4_three]

/-- With unit scale, zero rotations and zero position the model matrix is the
identity. -/
theorem modelView_identity {F : Type} [Field F] (m : GLMath F) (hcos : m.cos 0 = 1)
    (hsin : m.sin 0 = 0) :
    SetTransformations.modelView m ⟨1, 1, 1⟩ 0 0 0 ⟨0, 0, 0⟩ = Mat4.identity := by
  simp only [SetTransformations.modelView, glm_radians_zero, glm_rotate_zero m hcos hsin,
    glm_scale_one, glm_translate_zero, Mat4.mul_identity]

/-- C12: with a shader manager attached, `SetTransformations` with scale (1,1,1),
rotations (0,0,0) degrees and position (0,0,0) sets the `model` uniform to the 4x4
identity matrix (over the reals), and no other uniform. -/
theorem SetTransformations_identity (this : SceneManager ℝ) (sm : ShaderManager ℝ)
    (hsm : this.m_pShaderManager = some sm) :
    ∃ sm', (this.SetTransformations ⟨Real.cos, Real.sin, Real.sqrt, Real.pi⟩
        ⟨1, 1, 1⟩ 0 0 0 ⟨0, 0, 0⟩).m_pShaderManager = some sm' ∧
      sm'.uniforms "model" =
        some (.mat4 (vec4 (vec4 1 0 0 0) (vec4 0 1 0 0) (vec4 0 0 1 0) (vec4 0 0 0 1))) ∧
      ∀ name, name ≠ "model" → sm'.uniforms name = sm.uniforms name := by
  unfold SceneManager.SetTransformations
  rw [modelView_identity _ Real.cos_zero Real.sin_zero]
  simp only [hsm]
  refine ⟨_, rfl, ?_, ?_⟩
  · simp [ShaderManager.setMat4Value, ShaderManager.setUniform, g_ModelName, Mat4.identity]
  · intro name hname
    simp [ShaderManager.setMat4Value, ShaderManager.setUniform, g_ModelName, hname]

/-- C12 at a concrete scene manager: with no uniform set beforehand, the `model`
uniform holds the identity matrix afterwards. -/
theorem SetTransformations_identity_witness :
    ∃ sm', (SceneManager.SetTransformations
        ({ m_pShaderManager := some ⟨fun _ => none⟩, m_loadedTextures := 0, m_textureIDs := [],
           m_objectMaterials := [] } : SceneManager ℝ)
        ⟨Real.cos, Real.sin, Real.sqrt, Real.pi⟩ ⟨1, 1, 1⟩ 0 0 0 ⟨0, 0, 0⟩).m_pShaderManager =
          some sm' ∧
      sm'.uniforms "model" =
        some (.mat4 (vec4 (vec4 1 0 0 0) (vec4 0 1 0 0) (vec4 0 0 1 0) (vec4 0 0 0 1))) ∧
      sm'.uniforms "objectColor" = none := by
  obtain ⟨sm', hsm', hmodel, hother⟩ :=
    SetTransformations_identity
      ({ m_pShaderManager := some ⟨fun _ => none⟩, m_loadedTextures := 0, m_textureIDs := [],
         m_objectMaterials := [] } : SceneManager ℝ) ⟨fun _ => none⟩ rfl
  exact ⟨sm', hsm', hmodel, hother "objectColor" (by decide)⟩

/-- C13: with unit scale and zero position there is a test vector v that the model
matrix for rotations (X=90, Y=90, Z=0) degrees and the model matrix for rotations
(X=90, Y=0, Z=90) degrees send to different points (over the reals): for v = (1,0,0)
the first gives (0,1,0) and the second (0,0,1). -/
theorem modelView_rotation_order_observable :
    ∃ v : Vec3 ℝ,
      Mat4.apply (SetTransformations.modelView
        (⟨Real.cos, Real.sin, Real.sqrt, Real.pi⟩ : GLMath ℝ) ⟨1, 1, 1⟩ 90 90 0 ⟨0, 0, 0⟩)
        v.toPoint = vec4 0 1 0 1 ∧
      Mat4.apply (SetTransformations.modelView
        (⟨Real.cos, Real.sin, Real.sqrt, Real.pi⟩ : GLMath ℝ) ⟨1, 1, 1⟩ 90 0 90 ⟨0, 0, 0⟩)
        v.toPoint = vec4 0 0 1 1 ∧
      Mat4.apply (SetTransformations.modelView
        (⟨Real.cos, Real.sin, Real.sqrt, Real.pi⟩ : GLMath ℝ) ⟨1, 1, 1⟩ 90 90 0 ⟨0, 0, 0⟩)
        v.toPoint ≠
      Mat4.apply (SetTransformations.modelView
        (⟨Real.cos, Real.sin, Real.sqrt, Real.pi⟩ : GLMath ℝ) ⟨1, 1, 1⟩ 90 0 90 ⟨0, 0, 0⟩)
        v.toPoint := by
  refine ⟨⟨1, 0, 0⟩, ?_⟩
  have h1 : Mat4.apply (SetTransformations.modelView
      (⟨Real.cos, Real.sin, Real.sqrt, Real.pi⟩ : GLMath ℝ) ⟨1, 1, 1⟩ 90 90 0 ⟨0, 0, 0⟩)
      (Vec3.toPoint ⟨1, 0, 0⟩) = vec4 0 1 0 1 := by
    rw [modelView_apply _ Real.sqrt_one, glm_radians_ninety, glm_radians_zero]
    apply vec4_ext <;>
      simp [Vec3.toPoint, translatePoint, rotateAboutX, rotateAboutY, rotateAboutZ, scalePoint,
        vec4_zero, vec4_one, vec4_two, vec4_three]
  have h2 : Mat4.apply (SetTransformations.modelView
      (⟨Real.cos, Real.sin, Real.sqrt, Real.pi⟩ : GLMath ℝ) ⟨1, 1, 1⟩ 90 0 90 ⟨0, 0, 0⟩)
      (Vec3.toPoint ⟨1, 0, 0⟩) = vec4 0 0 1 1 := by
    rw [modelView_apply _ Real.sqrt_one, glm_radians_ninety, glm_radians_zero]
    apply vec4_ext <;>
      simp [Vec3.toPoint, translatePoint, rotateAboutX, rotateAboutY, rotateAboutZ, scalePoint,
        vec4_zero, vec4_one, vec4_two, vec4_three]
  refine ⟨h1, h2, ?_⟩
  rw [h1, h2]
  intro h
  have h1' := congrFun h 1
  simp [vec4_one] at h1'

/-- C18: for every scale, every triple of rotation angles and every position, the
model matrix of `SetTransformations` sends the local origin (0,0,0,1) to
(position, 1) (over the reals). -/
theorem modelView_origin (scaleXYZ : Vec3 ℝ) (X Y Z : ℝ) (positionXYZ : Vec3 ℝ) :
    Mat4.apply (SetTransformations.modelView (⟨Real.cos, Real.sin, Real.sqrt, Real.pi⟩ : GLMath ℝ)
        scaleXYZ X Y Z positionXYZ) (vec4 0 0 0 1) =
      vec4 positionXYZ.x positionXYZ.y positionXYZ.z 1 := by
  have h := modelView_apply (⟨Real.cos, Real.sin, Real.sqrt, Real.pi⟩ : GLMath ℝ)
    Real.sqrt_one scaleXYZ X Y Z positionXYZ ⟨0, 0, 0⟩
  have hp : Vec3.toPoint (⟨0, 0, 0⟩ : Vec3 ℝ) = vec4 0 0 0 1 := rfl
  rw [hp] at h
  rw [h]
  apply vec4_ext <;>
    simp [Vec3.toPoint, translatePoint, rotateAboutX, rotateAboutY, rotateAboutZ, scalePoint,
      vec4_zero, vec4_one, vec4_two, vec4_three]

/-! ## The fixed scene: loading -/

/-- When every call of a run of loads returned `true`, the registry has grown by one
slot per call, in order, each carrying the tag of its call; the slots in use before
are as they were. -/
theorem LoadSceneTextures_run_true {F : Type} (stbi_load : String → Option STBImage) :
    ∀ (calls : List (String × String)) (gl : GLState) (this : SceneManager F)
      (bs : List Bool) (gl1 : GLState) (this1 : SceneManager F),
      this.m_loadedTextures ≤ this.m_textureIDs.length →
      LoadSceneTextures.run stbi_load calls gl this = some (bs, gl1, this1) →
      (∀ b ∈ bs, b = true) →
      this1.m_loadedTextures = this.m_loadedTextures + calls.length ∧
      this1.m_loadedTextures ≤ this1.m_textureIDs.length ∧
      (∀ j, j < this.m_loadedTextures → this1.m_textureIDs[j]? = this.m_textureIDs[j]?) ∧
      (∀ k call, calls[k]? = some call →
        ∃ ID, this1.m_textureIDs[this.m_loadedTextures + k]? = some ⟨call.2, ID⟩) := by
  intro calls
  induction calls with
  | nil =>
    intro gl this bs gl1 this1 hwf hrun _
    simp only [LoadSceneTextures.run, Option.some.injEq, Prod.mk.injEq] at hrun
    obtain ⟨-, -, rfl⟩ := hrun
    refine ⟨rfl, hwf, fun _ _ => rfl, ?_⟩
    intro k call hk
    simp at hk
  | cons call rest ih =>
    intro gl this bs gl1 this1 hwf hrun hsucc
    simp only [LoadSceneTextures.run] at hrun
    cases hc : this.CreateGLTexture stbi_load gl call.1 call.2 with
    | none => simp [hc] at hrun
    | some r =>
      obtain ⟨b, gl', this'⟩ := r
      simp only [hc] at hrun
      cases hr : LoadSceneTextures.run stbi_load rest gl' this' with
      | none => simp [hr] at hrun
      | some rs =>
        obtain ⟨bs', gl1', this1'⟩ := rs
        simp only [hr, Option.some.injEq, Prod.mk.injEq] at hrun
        obtain ⟨rfl, rfl, rfl⟩ := hrun
        have hb : b = true := hsucc b (List.mem_cons_self _ _)
        subst hb
        obtain ⟨hroom, hthis'⟩ := CreateGLTexture_true this this' stbi_load gl gl' call.1 call.2 hc
        have hn' : this'.m_loadedTextures = this.m_loadedTextures + 1 := by
          rw [hthis']
          rfl
        have hlen' : this'.m_textureIDs.length = this.m_textureIDs.length := by
          rw [hthis']
          simp [SceneManager.registered]
        have hwf' : this'.m_loadedTextures ≤ this'.m_textureIDs.length := by omega
        obtain ⟨hcount, hbound, hold, hnew⟩ := ih gl' this' bs' gl1' this1' hwf' hr
          (fun b hb => hsucc b (List.mem_cons_of_mem _ hb))
        refine ⟨?_, hbound, ?_, ?_⟩
        · rw [hcount, hn', List.length_cons]
          omega
        · intro j hj
          rw [hold j (by omega), hthis']
          exact registered_getElem?_lt this _ _ j hj
        · intro k c hk
          cases k with
          | zero =>
            simp only [List.getElem?_cons_zero, Option.some.injEq] at hk
            subst hk
            refine ⟨(glGenTextures gl).1, ?_⟩
            rw [Nat.add_zero, hold _ (by omega), hthis']
            exact registered_getElem?_new this _ _ hroom
          | succ k =>
            simp only [List.getElem?_cons_succ] at hk
            obtain ⟨ID, hID⟩ := hnew k c hk
            refine ⟨ID, ?_⟩
            have hidx : this.m_loadedTextures + (k + 1) = this'.m_loadedTextures + k := by omega
            rw [hidx]
            exact hID

/-- When every file of a run of loads decodes with 3 or 4 channels and the array has
room for all of them, every call returns `true`. -/
theorem LoadSceneTextures_run_success {F : Type} (stbi_load : String → Option STBImage) :
    ∀ (calls : List (String × String)) (gl : GLState) (this : SceneManager F),
      this.m_loadedTextures + calls.length ≤ this.m_textureIDs.length →
      (∀ call ∈ calls, ∃ image, stbi_load call.1 = some image ∧
        (image.colorChannels = 3 ∨ image.colorChannels = 4)) →
      ∃ gl1 this1, LoadSceneTextures.run stbi_load calls gl this =
        some (List.replicate calls.length true, gl1, this1) := by
  intro calls
  induction calls with
  | nil =>
    intro gl this _ _
    exact ⟨gl, this, rfl⟩
  | cons call rest ih =>
    intro gl this hroom hdec
    obtain ⟨image, himg, hch⟩ := hdec call (List.mem_cons_self _ _)
    rw [List.length_cons] at hroom
    obtain ⟨gl', hcall⟩ := CreateGLTexture_success this stbi_load gl call.1 call.2 image
      (by omega) himg hch
    have hroom' : (this.registered (glGenTextures gl).1 call.2).m_loadedTextures + rest.length ≤
        (this.registered (glGenTextures gl).1 call.2).m_textureIDs.length := by
      simp only [SceneManager.registered, List.length_set]
      omega
    obtain ⟨gl1, this1, hrest⟩ := ih gl' (this.registered (glGenTextures gl).1 call.2) hroom'
      (fun c hc => hdec c (List.mem_cons_of_mem _ hc))
    refine ⟨gl1, this1, ?_⟩
    simp only [LoadSceneTextures.run, hcall, hrest, List.length_cons, List.replicate_succ]

/-- Every tag of the nine materials is carried by an entry of the catalog after
`DefineObjectMaterials`. -/
theorem DefineObjectMaterials_defines {F : Type} [Field F] (this : SceneManager F)
    (tag : String)
    (htag : tag ∈ ["steel", "ceramic", "wood", "plastic", "glass", "bagel", "paper", "wax",
      "candleFlame"]) :
    ∃ e ∈ this.DefineObjectMaterials.m_objectMaterials, e.tag = tag := by
  simp only [List.mem_cons, List.mem_singleton, List.not_mem_nil, or_false] at htag
  rcases htag with rfl | rfl | rfl | rfl | rfl | rfl | rfl | rfl | rfl <;>
    simp [SceneManager.DefineObjectMaterials, exists_or, or_and_right]

/-- A tag loaded by a run of loads whose calls all returned `true`, starting from an
empty registry, resolves to a slot below the number of calls. -/
theorem LoadSceneTextures_run_resolves {F : Type} (stbi_load : String → Option STBImage)
    (calls : List (String × String)) (gl gl1 : GLState) (this this1 : SceneManager F)
    (bs : List Bool) (hempty : this.m_loadedTextures = 0)
    (hrun : LoadSceneTextures.run stbi_load calls gl this = some (bs, gl1, this1))
    (hsucc : ∀ b ∈ bs, b = true) (tag : String) (htag : tag ∈ calls.map Prod.snd) :
    ∃ i : Nat, i < calls.length ∧ this1.FindTextureSlot tag = some (i : Int) := by
  obtain ⟨hcount, -, -, hnew⟩ := LoadSceneTextures_run_true stbi_load calls gl this bs gl1 this1
    (by omega) hrun hsucc
  obtain ⟨call, hmem, hcall⟩ := List.mem_map.mp htag
  obtain ⟨k, hk⟩ := List.getElem?_of_mem hmem
  obtain ⟨ID, hID⟩ := hnew k call hk
  have hklt : k < calls.length := by
    rcases Nat.lt_or_ge k calls.length with h | h
    · exact h
    · rw [List.getElem?_eq_none h] at hk
      cases hk
  rw [hempty, Nat.zero_add] at hID
  rw [hempty, Nat.zero_add] at hcount
  obtain ⟨i, e, hi, he, ht, hfirst⟩ := exists_first_slot this1.m_textureIDs
    this1.m_loadedTextures tag ⟨k, _, by omega, hID, hcall⟩
  exact ⟨i, by omega, (FindTexture_first_slot this1 tag i e hi he ht hfirst).1⟩

/-- C17: assuming all eleven `CreateGLTexture` calls of `LoadSceneTextures` return
`true` on an initially empty registry, `LoadSceneTextures` completes, every texture tag
that `RenderScene` passes to `SetShaderTexture` resolves to a slot in 0..10 ("Paper"
to slot 0 and "Table" to slot 1), and every material tag that `RenderScene` passes to
`SetShaderMaterial` is carried by an entry of the catalog after
`DefineObjectMaterials`. -/
theorem scene_tags_closed {F : Type} [Field F] (this this1 : SceneManager F)
    (stbi_load : String → Option STBImage) (gl gl1 : GLState) (bs : List Bool)
    (hempty : this.m_loadedTextures = 0)
    (hrun : LoadSceneTextures.run stbi_load LoadSceneTextures.calls gl this =
      some (bs, gl1, this1))
    (hsucc : ∀ b ∈ bs, b = true) :
    (∃ gl2, this.LoadSceneTextures stbi_load gl = some (gl2, this1)) ∧
    (∀ tag ∈ RenderScene.textureTags (RenderScene.calls : List (SceneCall F)),
      ∃ i : Nat, i ≤ 10 ∧ this1.FindTextureSlot tag = some (i : Int)) ∧
    this1.FindTextureSlot "Paper" = some 0 ∧
    this1.FindTextureSlot "Table" = some 1 ∧
    (∀ tag ∈ RenderScene.materialTags (RenderScene.calls : List (SceneCall F)),
      ∃ e ∈ this1.DefineObjectMaterials.m_objectMaterials, e.tag = tag) := by
  obtain ⟨hcount, hbound, -, hnew⟩ := LoadSceneTextures_run_true stbi_load
    LoadSceneTextures.calls gl this bs gl1 this1 (by omega) hrun hsucc
  rw [hempty, Nat.zero_add] at hcount
  have htex : RenderScene.textureTags (RenderScene.calls : List (SceneCall F)) =
      ["Table", "Metal_S", "Metal_S", "Plastic_P", "Metal_T", "Paper", "Bagel_B", "Candle_C",
        "Candle_L", "Mug_M", "Lblue_B", "White_Lid"] := rfl
  have hmat : RenderScene.materialTags (RenderScene.calls : List (SceneCall F)) =
      ["wood", "steel", "steel", "plastic", "paper", "bagel", "wax", "candleFlame", "ceramic",
        "plastic", "plastic"] := rfl
  refine ⟨?_, ?_, ?_, ?_, ?_⟩
  · obtain ⟨gl2, hbind, -, -⟩ := BindGLTextures_loop_units this1 hbound _ 0 gl1 rfl
    refine ⟨gl2, ?_⟩
    simp only [SceneManager.LoadSceneTextures, hrun, SceneManager.BindGLTextures, hbind]
  · intro tag htag
    rw [htex] at htag
    have hloaded : tag ∈ LoadSceneTextures.calls.map Prod.snd := by
      revert tag
      decide
    obtain ⟨i, hi, hslot⟩ := LoadSceneTextures_run_resolves stbi_load LoadSceneTextures.calls
      gl gl1 this this1 bs hempty hrun hsucc tag hloaded
    have hlen : LoadSceneTextures.calls.length = 11 := rfl
    exact ⟨i, by omega, hslot⟩
  · obtain ⟨ID, hID⟩ := hnew 0 _ rfl
    rw [hempty] at hID
    exact (FindTexture_first_slot this1 "Paper" 0 _ (by rw [hcount]; decide) hID rfl
      (fun j e' hj _ => absurd hj (Nat.not_lt_zero j))).1
  · obtain ⟨ID0, hID0⟩ := hnew 0 _ rfl
    obtain ⟨ID1, hID1⟩ := hnew 1 _ rfl
    rw [hempty] at hID0 hID1
    refine (FindTexture_first_slot this1 "Table" 1 _ (by rw [hcount]; decide) hID1 rfl ?_).1
    intro j e' hj he'
    have hj0 : j = 0 := by omega
    subst hj0
    rw [hID0] at he'
    cases he'
    exact (by decide : ("Paper" : String) ≠ "Table")
  · intro tag htag
    rw [hmat] at htag
    apply DefineObjectMaterials_defines
    revert tag
    decide

/-- C17 at a concrete start: from an empty array of sixteen slots, with every file
decoding as an RGB image, the eleven loads succeed, "Paper" resolves to slot 0,
"Table" to slot 1 and "White_Lid", the last tag the scene uses, to a slot up to 10. -/
theorem scene_tags_closed_witness :
    sceneEmpty.m_loadedTextures = 0 ∧
    ∃ gl2 this1, sceneEmpty.LoadSceneTextures decodeRGB contextCounting = some (gl2, this1) ∧
      this1.FindTextureSlot "Paper" = some 0 ∧
      this1.FindTextureSlot "Table" = some 1 ∧
      (∃ i : Nat, i ≤ 10 ∧ this1.FindTextureSlot "White_Lid" = some (i : Int)) ∧
      ∃ e ∈ this1.DefineObjectMaterials.m_objectMaterials, e.tag = "candleFlame" := by
  obtain ⟨gl1, this1, hrun⟩ := LoadSceneTextures_run_success decodeRGB LoadSceneTextures.calls
    contextCounting sceneEmpty (by decide) (fun call _ => ⟨⟨64, 64, 3⟩, rfl, Or.inl rfl⟩)
  obtain ⟨⟨gl2, hload⟩, htex, hpaper, htable, hmat⟩ :=
    scene_tags_closed sceneEmpty this1 decodeRGB contextCounting gl1 _ rfl hrun
      (fun b hb => List.eq_of_mem_replicate hb)
  exact ⟨rfl, gl2, this1, hload, hpaper, htable, htex "White_Lid" (by decide),
    hmat "candleFlame" (by decide)⟩

/-! ## The fixed scene: the calls before each draw -/

/-- C14, the code at the failing draw: of the twelve draw calls of `RenderScene`, the
fifth (the jar lid handle) is not prepared: the calls made since the fourth draw are a
`SetTransformations` call, a `SetShaderColor` call and `SetShaderTexture("Metal_T")`,
and no `SetShaderMaterial` call.  The other eleven draws are each preceded by a
transform call, then color and texture calls, then a material call. -/
theorem RenderScene_lid_handle_unprepared {F : Type} [Field F] :
    (drawSegments (RenderScene.calls : List (SceneCall F)) []).map prepared =
      [true, true, true, true, false, true, true, true, true, true, true, true] ∧
    (drawSegments (RenderScene.calls : List (SceneCall F)) [])[4]? =
      some [.SetTransformations ⟨0.5, 0.8, 0.5⟩ 90.0 (-10.0) 100.0 ⟨2.7, 5.35, 0.0⟩,
        .SetShaderColor 0.412 0.412 0.412 1, .SetShaderTexture "Metal_T"] ∧
    RenderScene.materialTags
      ([.SetTransformations ⟨0.5, 0.8, 0.5⟩ 90.0 (-10.0) 100.0 ⟨2.7, 5.35, 0.0⟩,
        .SetShaderColor 0.412 0.412 0.412 1, .SetShaderTexture "Metal_T"] :
        List (SceneCall F)) = [] :=
  ⟨rfl, rfl, rfl⟩

/-! ## The texture registry: what failure and teardown leave behind -/

/-- On the path for a channel count other than 3 or 4, `CreateGLTexture` has already
generated a texture name and bound it on the active unit when it returns `false`. -/
theorem CreateGLTexture_unsupported_generates {F : Type} (this : SceneManager F)
    (stbi_load : String → Option STBImage) (gl : GLState) (filename tag : String)
    (image : STBImage) (himg : stbi_load filename = some image)
    (h3 : image.colorChannels ≠ 3) (h4 : image.colorChannels ≠ 4) :
    ∃ gl', this.CreateGLTexture stbi_load gl filename tag = some (false, gl', this) ∧
      gl'.generated = gl.generated ++ [gl.nextName gl.generated] ∧
      gl'.boundTexture2D gl.activeTexture = gl.nextName gl.generated := by
  unfold SceneManager.CreateGLTexture
  rw [himg]
  simp only [if_neg h3, if_neg h4]
  refine ⟨_, rfl, rfl, ?_⟩
  simp [glTexParameteri, GLState.onBoundTexture, glBindTexture, glGenTextures]

/-- C15, the code at a failing input: for an image that decodes with one channel,
`CreateGLTexture` returns `false` and leaves the registry as it was, but the names
generated go from 7, 9 to 7, 9, 11: the name 11 has been generated, and it is left
bound on the active unit. -/
theorem CreateGLTexture_unsupported_leaves_texture :
    decodeGray "Gray.jpg" = some ⟨64, 64, 1⟩ ∧
    contextTwoNames.generated = [7, 9] ∧
    ∃ gl', registryTableMetal.CreateGLTexture decodeGray contextTwoNames "Gray.jpg" "Gray" =
        some (false, gl', registryTableMetal) ∧
      gl'.generated = [7, 9, 11] ∧
      gl'.boundTexture2D 0 = 11 := by
  obtain ⟨gl', hcall, hgen, hbound⟩ :=
    CreateGLTexture_unsupported_generates registryTableMetal decodeGray contextTwoNames
      "Gray.jpg" "Gray" ⟨64, 64, 1⟩ rfl (by decide) (by decide)
  exact ⟨rfl, rfl, gl', hcall, hgen, hbound⟩

/-- The `for` loop of `DestroyGLTextures` entered at `i`: it completes, generates one
new name per remaining slot in use, keeps the names generated before, and leaves
every texture object as it was. -/
theorem DestroyGLTextures_loop_generates (n : Nat) :
    ∀ (k i : Nat) (gl : GLState) (ids : List TEXTURE_INFO), n - i = k → n ≤ ids.length →
      ∃ gl' ids', DestroyGLTextures.loop n i gl ids = some (gl', ids') ∧
        gl'.generated.length = gl.generated.length + k ∧
        gl.generated <+: gl'.generated ∧
        gl'.textures = gl.textures ∧
        ids'.length = ids.length := by
  intro k
  induction k with
  | zero =>
    intro i gl ids hk _
    have hge : ¬ i < n := by omega
    rw [DestroyGLTextures.loop]
    simp only [hge, dite_false]
    exact ⟨gl, ids, rfl, rfl, List.prefix_refl _, rfl, rfl⟩
  | succ k ih =>
    intro i gl ids hk hlen
    have hlt : i < n := by omega
    have hget : ids[i]? = some ids[i] := List.getElem?_eq_getElem (by omega)
    rw [DestroyGLTextures.loop]
    simp only [hlt, dite_true, hget]
    obtain ⟨gl', ids', hrun, hcount, hprefix, htex, hlen'⟩ :=
      ih (i + 1) (glGenTextures gl).2
        (ids.set i { ids[i] with ID := (glGenTextures gl).1 }) (by omega)
        (by rw [List.length_set]; exact hlen)
    refine ⟨gl', ids', hrun, ?_, ?_, ?_, ?_⟩
    · rw [hcount]
      simp only [glGenTextures, List.length_append, List.length_singleton]
      omega
    · exact List.IsPrefix.trans (List.prefix_append _ _) hprefix
    · rw [htex]
      rfl
    · rw [hlen', List.length_set]

/-- C16, the code at a failing input: on the registry holding the names 7 ("Table") and
9 ("Metal_S"), `DestroyGLTextures` generates two new names, 22 and 23, and writes them
over the IDs in the slots; the texture objects are all as before, so nothing is
released, and the names 7 and 9 are no longer held by the registry. -/
theorem DestroyGLTextures_generates_names :
    contextCounting.generated = [7, 9] ∧
    ∃ gl' this', registryTableMetal.DestroyGLTextures contextCounting = some (gl', this') ∧
      gl'.generated = [7, 9, 22, 23] ∧
      gl'.textures = contextCounting.textures ∧
      this'.m_loadedTextures = 2 ∧
      this'.m_textureIDs = [⟨"Table", 22⟩, ⟨"Metal_S", 23⟩, ⟨"", 0⟩, ⟨"", 0⟩] := by
  refine ⟨rfl, ?_⟩
  have hloop : DestroyGLTextures.loop 2 0 contextCounting
      [⟨"Table", 7⟩, ⟨"Metal_S", 9⟩, ⟨"", 0⟩, ⟨"", 0⟩] =
      some ((glGenTextures (glGenTextures contextCounting).2).2,
        [⟨"Table", 22⟩, ⟨"Metal_S", 23⟩, ⟨"", 0⟩, ⟨"", 0⟩]) := by
    rw [DestroyGLTextures.loop]
    simp only [show (0 : Nat) < 2 by decide, dite_true, List.getElem?_cons_zero]
    rw [DestroyGLTextures.loop]
    simp only [show (0 + 1 : Nat) < 2 by decide, dite_true, List.set_cons_zero,
      List.getElem?_cons_succ, List.getElem?_cons_zero]
    rw [DestroyGLTextures.loop]
    simp only [show ¬ (0 + 1 + 1 : Nat) < 2 by decide, dite_false]
    rfl
  refine ⟨(glGenTextures (glGenTextures contextCounting).2).2,
    { registryTableMetal with
      m_textureIDs := [⟨"Table", 22⟩, ⟨"Metal_S", 23⟩, ⟨"", 0⟩, ⟨"", 0⟩] }, ?_, rfl, rfl, rfl, rfl⟩
  simp only [SceneManager.DestroyGLTextures, registryTableMetal, hloop]

end Scene
